import Mathlib

/-!
Verification development for the sales-ramp-ai repository.

Shallow embedding of the core decision components, translated from the
TypeScript sources:

* `src/services/stage-engine.service.ts` — rule engine, confidence scoring,
  action routing (`mapToStage`, `evaluateRule`, `calculateConfidence`,
  `getActionDecision`).
* `src/services/stall-detector.service.ts` — phrase detection over the
  pattern table, time-decayed confidence, deal stall score, email analysis.
* `src/services/audit.service.ts` — append-only audit log with rollback.
* `src/services/alert.service.ts` — alert generation with deduplicating
  suppression and acknowledgment.

Modelling conventions: JS `number` values that only ever hold exact decimal
inputs and results of field/`+`/`*`/comparison arithmetic are embedded as `ℚ`
(timestamps are milliseconds-since-epoch as `ℚ`); the one genuinely
transcendental computation, `Math.pow(0.5, x)` in the time-decay formula, is
embedded over `ℝ` with `Real.rpow`.  `Date.now()`, generated UUIDs and the
ambient class configuration are passed explicitly as parameters.  Purely
presentational strings that are built with float formatting (`toFixed`,
`toLocaleString`) — the `reasoning` field of a stage-mapping result, the
`reason` field of an action decision, and alert title/summary templates —
are omitted from the embedded records; no claim mentions them.  Logging
calls are omitted.
-/

-- =============================================================================
-- STAGE ENGINE (src/services/stage-engine.service.ts)
-- =============================================================================

/-- `CallSignalType` enum from `src/types/crm-automation.ts`. -/
inductive CallSignalType where
  | LIVE_CONVERSATION
  | INTEREST_EXPRESSED
  | DEMO_SCHEDULED
  | PRICING_DISCUSSED
  | SEND_PRICING_REQUEST
  | OBJECTION_RAISED
  | OBJECTION_HANDLED
  | DECISION_MAKER_IDENTIFIED
  | NEXT_STEPS_DEFINED
  | NO_ANSWER
  | VOICEMAIL_LEFT
  | WRONG_NUMBER
  | GATEKEEPER
  | NOT_INTERESTED
  | COMPETITOR_MENTIONED
  | BUDGET_DISCUSSED
  | TIMELINE_DISCUSSED
  | FOLLOW_UP_REQUESTED
deriving DecidableEq, Repr

/-- `OutreachStage` enum from `src/types/crm-automation.ts`. -/
inductive OutreachStage where
  | NEW
  | ATTEMPTED
  | WORKING
  | QUALIFIED
  | DEMO_SCHEDULED
  | PROPOSAL
  | NEGOTIATION
  | CLOSED_WON
  | CLOSED_LOST
  | NURTURE
deriving DecidableEq, Repr

/-- `OutreachDisposition` enum from `src/types/crm-automation.ts`. -/
inductive OutreachDisposition where
  | NO_ANSWER
  | LEFT_VOICEMAIL
  | WRONG_NUMBER
  | GATEKEEPER_BLOCK
  | NOT_INTERESTED
  | CONNECTED
  | DEMO_SCHEDULED
  | MEETING_SCHEDULED
  | SENT_INFO
  | CALLBACK_SCHEDULED
  | FOLLOW_UP
deriving DecidableEq, Repr

/-- `CallSignal` from `src/types/crm-automation.ts` (the optional
`timestamp`/`metadata` fields are never read by the stage engine and are
omitted). -/
structure CallSignal where
  type : CallSignalType
  confidence : ℚ
  evidence : String := ""
deriving DecidableEq, Repr

/-- `StageRule.conditions` from `stage-engine.service.ts`. -/
structure RuleConditions where
  requiredSignals : Option (List CallSignalType) := none
  anySignals : Option (List CallSignalType) := none
  excludeSignals : Option (List CallSignalType) := none
  minConfidence : Option ℚ := none
deriving DecidableEq, Repr

/-- `StageRule.result` from `stage-engine.service.ts`. -/
structure RuleResult where
  stage : OutreachStage
  disposition : Option OutreachDisposition := none
  flags : Option (List String) := none
  suggestedTasks : Option (List String) := none
deriving DecidableEq, Repr

/-- `StageRule` from `stage-engine.service.ts`. -/
structure StageRule where
  conditions : RuleConditions
  result : RuleResult
  priority : ℕ
deriving DecidableEq, Repr

/-- The `STAGE_RULES` table from `stage-engine.service.ts`, transcribed
rule-for-rule in source order. -/
def STAGE_RULES : List StageRule := [
  -- Demo Scheduled - highest priority
  { conditions := { anySignals := some [.DEMO_SCHEDULED], minConfidence := some 0.6 },
    result := { stage := .DEMO_SCHEDULED, disposition := some .DEMO_SCHEDULED,
                suggestedTasks := some ["Confirm demo meeting details", "Send calendar invite"] },
    priority := 100 },
  -- Not Interested - disqualify
  { conditions := { anySignals := some [.NOT_INTERESTED], minConfidence := some 0.7 },
    result := { stage := .CLOSED_LOST, disposition := some .NOT_INTERESTED,
                flags := some ["disqualified"] },
    priority := 95 },
  -- Wrong Number - cleanup
  { conditions := { anySignals := some [.WRONG_NUMBER], minConfidence := some 0.8 },
    result := { stage := .CLOSED_LOST, disposition := some .WRONG_NUMBER,
                flags := some ["data_quality_issue"],
                suggestedTasks := some ["Verify contact information"] },
    priority := 94 },
  -- Pricing discussed + interest = Proposal stage
  { conditions := { requiredSignals := some [.PRICING_DISCUSSED],
                    anySignals := some [.INTEREST_EXPRESSED, .BUDGET_DISCUSSED],
                    minConfidence := some 0.6 },
    result := { stage := .PROPOSAL, disposition := some .CONNECTED,
                suggestedTasks := some ["Prepare proposal", "Send pricing document"] },
    priority := 85 },
  -- "Send pricing" request - Negotiation with stall flag
  { conditions := { anySignals := some [.SEND_PRICING_REQUEST],
                    excludeSignals := some [.DEMO_SCHEDULED, .NOT_INTERESTED],
                    minConfidence := some 0.5 },
    result := { stage := .NEGOTIATION, disposition := some .SENT_INFO,
                flags := some ["stall_flag", "needs_follow_up"],
                suggestedTasks := some ["Send pricing information", "Schedule follow-up call in 3 days"] },
    priority := 80 },
  -- Live conversation with interest = Qualified
  { conditions := { requiredSignals := some [.LIVE_CONVERSATION],
                    anySignals := some [.INTEREST_EXPRESSED, .DECISION_MAKER_IDENTIFIED],
                    excludeSignals := some [.NOT_INTERESTED],
                    minConfidence := some 0.6 },
    result := { stage := .QUALIFIED, disposition := some .CONNECTED,
                suggestedTasks := some ["Schedule follow-up"] },
    priority := 75 },
  -- Objection handled = Working
  { conditions := { requiredSignals := some [.OBJECTION_HANDLED],
                    anySignals := some [.LIVE_CONVERSATION],
                    minConfidence := some 0.5 },
    result := { stage := .WORKING, disposition := some .CONNECTED,
                suggestedTasks := some ["Continue nurturing relationship"] },
    priority := 70 },
  -- Objection raised but not handled - needs attention
  { conditions := { requiredSignals := some [.OBJECTION_RAISED],
                    excludeSignals := some [.OBJECTION_HANDLED, .DEMO_SCHEDULED],
                    minConfidence := some 0.5 },
    result := { stage := .WORKING, disposition := some .FOLLOW_UP,
                flags := some ["objection_unresolved", "needs_coaching_review"],
                suggestedTasks := some ["Address objection in follow-up", "Review call with manager"] },
    priority := 65 },
  -- Live conversation, neutral outcome
  { conditions := { requiredSignals := some [.LIVE_CONVERSATION],
                    excludeSignals := some [.NOT_INTERESTED, .WRONG_NUMBER],
                    minConfidence := some 0.5 },
    result := { stage := .WORKING, disposition := some .CONNECTED },
    priority := 60 },
  -- Follow-up requested/scheduled
  { conditions := { anySignals := some [.FOLLOW_UP_REQUESTED, .NEXT_STEPS_DEFINED],
                    excludeSignals := some [.NOT_INTERESTED],
                    minConfidence := some 0.5 },
    result := { stage := .WORKING, disposition := some .CALLBACK_SCHEDULED,
                suggestedTasks := some ["Schedule follow-up call"] },
    priority := 55 },
  -- Voicemail left
  { conditions := { anySignals := some [.VOICEMAIL_LEFT], minConfidence := some 0.7 },
    result := { stage := .ATTEMPTED, disposition := some .LEFT_VOICEMAIL,
                suggestedTasks := some ["Schedule next call attempt"] },
    priority := 50 },
  -- No answer
  { conditions := { anySignals := some [.NO_ANSWER], minConfidence := some 0.7 },
    result := { stage := .ATTEMPTED, disposition := some .NO_ANSWER,
                suggestedTasks := some ["Schedule next call attempt"] },
    priority := 45 },
  -- Gatekeeper - attempted
  { conditions := { anySignals := some [.GATEKEEPER],
                    excludeSignals := some [.LIVE_CONVERSATION],
                    minConfidence := some 0.6 },
    result := { stage := .ATTEMPTED, disposition := some .GATEKEEPER_BLOCK,
                flags := some ["gatekeeper_encountered"],
                suggestedTasks := some ["Try different approach", "Research direct contact info"] },
    priority := 40 }
]

/-- `DEFAULT_SIGNAL_WEIGHTS` from `stage-engine.service.ts`. -/
def DEFAULT_SIGNAL_WEIGHTS : CallSignalType → ℚ
  | .LIVE_CONVERSATION => 1.0
  | .INTEREST_EXPRESSED => 1.2
  | .DEMO_SCHEDULED => 1.5
  | .PRICING_DISCUSSED => 1.3
  | .SEND_PRICING_REQUEST => 1.0
  | .OBJECTION_RAISED => 0.8
  | .OBJECTION_HANDLED => 1.1
  | .DECISION_MAKER_IDENTIFIED => 1.2
  | .NEXT_STEPS_DEFINED => 1.1
  | .NO_ANSWER => 0.9
  | .VOICEMAIL_LEFT => 0.9
  | .WRONG_NUMBER => 1.0
  | .GATEKEEPER => 0.8
  | .NOT_INTERESTED => 1.0
  | .COMPETITOR_MENTIONED => 0.9
  | .BUDGET_DISCUSSED => 1.1
  | .TIMELINE_DISCUSSED => 1.1
  | .FOLLOW_UP_REQUESTED => 1.0

/-- `StageEngineConfig` from `src/types/crm-automation.ts`; the partial
per-type weight override record is a map to `Option ℚ`. -/
structure StageEngineConfig where
  highConfidenceThreshold : ℚ
  mediumConfidenceThreshold : ℚ
  enableAutoUpdate : Bool
  enableFlagging : Bool
  signalWeights : CallSignalType → Option ℚ

/-- The merged weight table of `StageEngineService` (constructor spreads the
config overrides over `DEFAULT_SIGNAL_WEIGHTS`). -/
def mergedSignalWeights (cfg : StageEngineConfig) (t : CallSignalType) : ℚ :=
  (cfg.signalWeights t).getD (DEFAULT_SIGNAL_WEIGHTS t)

/-- Defaulted configuration built by the `StageEngineService` constructor when
no overrides are supplied. -/
def defaultStageEngineConfig : StageEngineConfig :=
  { highConfidenceThreshold := 0.8
    mediumConfidenceThreshold := 0.5
    enableAutoUpdate := true
    enableFlagging := true
    signalWeights := fun _ => none }

-- Rule evaluation (`StageEngineService.evaluateRule`), decomposed into the
-- four sequential condition checks of the source (each early `return false`
-- becomes one conjunct).

/-- The `signalTypes` set of `evaluateRule`: membership test over the types of
the given signals. -/
def signalTypesHas (signals : List CallSignal) (t : CallSignalType) : Bool :=
  (signals.map (·.type)).contains t

/-- Required-signals check of `evaluateRule` (all must be present). -/
def requiredSignalsOk (c : RuleConditions) (signals : List CallSignal) : Bool :=
  match c.requiredSignals with
  | some req => req.all (fun t => signalTypesHas signals t)
  | none => true

/-- Any-signals check of `evaluateRule` (at least one must be present). -/
def anySignalsOk (c : RuleConditions) (signals : List CallSignal) : Bool :=
  match c.anySignals with
  | some anyS => anyS.any (fun t => signalTypesHas signals t)
  | none => true

/-- Excluded-signals check of `evaluateRule` (none may be present). -/
def excludeSignalsOk (c : RuleConditions) (signals : List CallSignal) : Bool :=
  match c.excludeSignals with
  | some excl => !(excl.any (fun t => signalTypesHas signals t))
  | none => true

/-- The `relevantSignals` filter shared by `evaluateRule`,
`calculateConfidence` and `generateReasoning`: signals whose type occurs in
the required or any-of condition sets (`?.includes` on an absent set is
falsy). -/
def relevantSignals (c : RuleConditions) (signals : List CallSignal) : List CallSignal :=
  signals.filter (fun s =>
    (c.requiredSignals.getD []).contains s.type ||
    (c.anySignals.getD []).contains s.type)

/-- Minimum-confidence check of `evaluateRule`: when a `minConfidence`
condition is present and at least one relevant signal exists, the average
confidence of the relevant signals must reach the threshold; with no relevant
signals the check passes. -/
def minConfidenceOk (c : RuleConditions) (signals : List CallSignal) : Bool :=
  match c.minConfidence with
  | some minC =>
      let relevant := relevantSignals c signals
      if relevant.length > 0 then
        decide (minC ≤ ((relevant.map (·.confidence)).sum / (relevant.length : ℚ)))
      else true
  | none => true

/-- `StageEngineService.evaluateRule`. -/
def evaluateRule (rule : StageRule) (signals : List CallSignal) : Bool :=
  requiredSignalsOk rule.conditions signals &&
  anySignalsOk rule.conditions signals &&
  excludeSignalsOk rule.conditions signals &&
  minConfidenceOk rule.conditions signals

/-- `Math.round(x * 100) / 100` (JS `Math.round` is floor of `x + 1/2`). -/
def round2 (q : ℚ) : ℚ := ((⌊q * 100 + 1 / 2⌋ : ℤ) : ℚ) / 100

/-- `StageEngineService.calculateConfidence`.  The `|| 1.0` fallback on a
weight is JS truthiness: it fires exactly when the merged weight is `0`. -/
def calculateConfidence (cfg : StageEngineConfig) (signals : List CallSignal)
    (rule : StageRule) : ℚ :=
  let relevant := relevantSignals rule.conditions signals
  if relevant.length = 0 then 0.5
  else
    let weightOf : CallSignal → ℚ := fun s =>
      let w := mergedSignalWeights cfg s.type
      if w = 0 then 1.0 else w
    let totalWeight := (relevant.map weightOf).sum
    let weightedSum := (relevant.map (fun s => s.confidence * weightOf s)).sum
    let baseConfidence := weightedSum / totalWeight
    let signalCountBoost := min ((relevant.length : ℚ) * 0.05) 0.15
    let priorityBoost := ((rule.priority : ℚ) / 100) * 0.1
    let finalConfidence := min (baseConfidence + signalCountBoost + priorityBoost) 1.0
    round2 finalConfidence

/-- Action variants of `ActionDecision.action`. -/
inductive AutomationAction where
  | AUTO_UPDATE
  | FLAG_FOR_CONFIRMATION
  | NO_ACTION
deriving DecidableEq, Repr

/-- `ConfidenceLevel` enum from `src/types/crm-automation.ts`. -/
inductive ConfidenceLevel where
  | HIGH
  | MEDIUM
  | LOW
deriving DecidableEq, Repr

/-- `ActionDecision` from `src/types/crm-automation.ts` (the `reason` string,
formatted with `toFixed`, is presentational and omitted). -/
structure ActionDecision where
  action : AutomationAction
  confidenceLevel : ConfidenceLevel
  confidence : ℚ
deriving DecidableEq, Repr

/-- `StageEngineService.getActionDecision`. -/
def getActionDecision (cfg : StageEngineConfig) (confidence : ℚ) : ActionDecision :=
  if cfg.highConfidenceThreshold ≤ confidence then
    { action := if cfg.enableAutoUpdate then .AUTO_UPDATE else .FLAG_FOR_CONFIRMATION
      confidenceLevel := .HIGH
      confidence := confidence }
  else if cfg.mediumConfidenceThreshold ≤ confidence then
    { action := if cfg.enableFlagging then .FLAG_FOR_CONFIRMATION else .NO_ACTION
      confidenceLevel := .MEDIUM
      confidence := confidence }
  else
    { action := .NO_ACTION, confidenceLevel := .LOW, confidence := confidence }

/-- `StageMappingResult` from `src/types/crm-automation.ts` (the `reasoning`
string is presentational and omitted). -/
structure StageMappingResult where
  newStage : OutreachStage
  disposition : Option OutreachDisposition := none
  confidence : ℚ
  flags : List String
  requiresConfirmation : Bool
  suggestedTasks : List String
deriving DecidableEq, Repr

/-- The result `mapToStage` builds for a matched rule. -/
def applyRule (cfg : StageEngineConfig) (rule : StageRule)
    (signals : List CallSignal) : StageMappingResult :=
  let confidence := calculateConfidence cfg signals rule
  let actionDecision := getActionDecision cfg confidence
  { newStage := rule.result.stage
    disposition := rule.result.disposition
    confidence := confidence
    flags := rule.result.flags.getD []
    requiresConfirmation := actionDecision.action = .FLAG_FOR_CONFIRMATION
    suggestedTasks := rule.result.suggestedTasks.getD [] }

/-- The fixed default result `mapToStage` returns when no rule matched. -/
def defaultMappingResult : StageMappingResult :=
  { newStage := .WORKING
    confidence := 0.3
    flags := ["needs_manual_review"]
    requiresConfirmation := true
    suggestedTasks := ["Review call recording and update stage manually"] }

/-- Stable insertion of a rule into a priority-descending list (models one
step of the stable JS `sort((a, b) => b.priority - a.priority)`). -/
def insertByPriority (r : StageRule) : List StageRule → List StageRule
  | [] => [r]
  | x :: xs => if x.priority < r.priority then r :: x :: xs else x :: insertByPriority r xs

/-- Stable sort of the rule table by descending priority, as performed at the
top of `mapToStage`. -/
def sortRulesDesc (l : List StageRule) : List StageRule :=
  l.foldl (fun acc r => insertByPriority r acc) []

/-- The `sortedRules` list of `mapToStage`. -/
def sortedRules : List StageRule := sortRulesDesc STAGE_RULES

/-- The `for (const rule of sortedRules)` loop of `mapToStage`: first rule
whose conditions evaluate true wins, otherwise the default result. -/
def mapToStageAux (cfg : StageEngineConfig) (signals : List CallSignal) :
    List StageRule → StageMappingResult
  | [] => defaultMappingResult
  | r :: rs =>
      if evaluateRule r signals then applyRule cfg r signals
      else mapToStageAux cfg signals rs

/-- `StageEngineService.mapToStage` (`callData.signals` is the only field of
`ExtractedCallData` the function reads besides logging). -/
def mapToStage (cfg : StageEngineConfig) (signals : List CallSignal) :
    StageMappingResult :=
  mapToStageAux cfg signals sortedRules

-- =============================================================================
-- STALL DETECTOR (src/services/stall-detector.service.ts)
-- =============================================================================

/-- `StallPhraseCategory` enum from `src/types/stall.ts`. -/
inductive StallPhraseCategory where
  | PRICING_REQUEST
  | APPROVAL_NEEDED
  | THINKING
  | TEAM_CHECK
  | DECISION_MAKER
  | CALLBACK_REQUEST
  | FOLLOWUP_PROMISE
  | INTERNAL_DISCUSSION
deriving DecidableEq, Repr

/-- `StallSignalSource` enum from `src/types/stall.ts`. -/
inductive StallSignalSource where
  | CALL_TRANSCRIPT
  | EMAIL
  | MEETING_NOTES
  | CRM_NOTES
deriving DecidableEq, Repr

-- Regular expressions.  The pattern table uses a small fragment of JS regex
-- syntax: case-insensitive literal words, `\s+`/`\s*`, `\b` word boundaries,
-- ordered alternation `(a|b)` and optional groups `(...)?`.  That fragment is
-- embedded as the `Reg` AST below together with a nondeterministic matcher;
-- a pattern matches at a position iff some execution path of the JS
-- backtracking engine matches there, and the match extent is resolved to the
-- longest path, which coincides with the greedy backtracking result on every
-- pattern in the table (greedy `\s+`, `\s*` and `(...)?`, and alternatives
-- whose successful branches never overlap with different lengths).

/-- AST for the regex fragment used by `STALL_PATTERNS`. -/
inductive Reg where
  | eps : Reg
  | lit : String → Reg
  | wsPlus : Reg
  | wsStar : Reg
  | wb : Reg
  | seq : Reg → Reg → Reg
  | alt : Reg → Reg → Reg
  | opt : Reg → Reg

/-- Concatenation of a list of regexes. -/
def Reg.cat (rs : List Reg) : Reg := rs.foldr Reg.seq Reg.eps

/-- Ordered alternation of a list of regexes. -/
def Reg.anyOf : List Reg → Reg
  | [] => Reg.eps
  | [r] => r
  | r :: rs => Reg.alt r (Reg.anyOf rs)

/-- JS `\s` on the ASCII inputs at hand. -/
def isWsChar (c : Char) : Bool :=
  c = ' ' || c = '\t' || c = '\n' || c = '\r'

/-- JS `\w` (word character) on ASCII inputs. -/
def isWordChar (c : Char) : Bool :=
  c.isAlpha || c.isDigit || c = '_'

/-- Whether a `\b` word boundary holds between the previous character and the
next character. -/
def boundaryOk (prev next : Option Char) : Bool :=
  (match prev with | none => false | some c => isWordChar c) !=
  (match next with | none => false | some c => isWordChar c)

/-- Case-insensitive match of a literal character run; returns the remainder
and the last consumed character. -/
def litM : List Char → Option Char → List Char → List (Option Char × List Char)
  | [], prev, s => [(prev, s)]
  | _ :: _, _, [] => []
  | p :: ps, _, c :: cs =>
      if p.toLower = c.toLower then litM ps (some c) cs else []

/-- All ways to consume one-or-more whitespace characters. -/
def wsRuns : Option Char → List Char → List (Option Char × List Char)
  | _, [] => []
  | _, c :: cs =>
      if isWsChar c then (some c, cs) :: wsRuns (some c) cs else []

/-- Nondeterministic matcher: all `(last consumed char, remainder)` pairs
reachable by matching `r` against a prefix of `s`, with `prev` the character
immediately before `s` (for `\b`). -/
def mrun : Reg → Option Char → List Char → List (Option Char × List Char)
  | .eps, prev, s => [(prev, s)]
  | .lit l, prev, s => litM l.data prev s
  | .wsPlus, prev, s => wsRuns prev s
  | .wsStar, prev, s => (prev, s) :: wsRuns prev s
  | .wb, prev, s => if boundaryOk prev s.head? then [(prev, s)] else []
  | .seq a b, prev, s => (mrun a prev s).flatMap (fun pr => mrun b pr.1 pr.2)
  | .alt a b, prev, s => mrun a prev s ++ mrun b prev s
  | .opt a, prev, s => (prev, s) :: mrun a prev s

/-- Lengths of all matches of `r` starting at the head of `s`. -/
def matchLens (r : Reg) (prev : Option Char) (s : List Char) : List ℕ :=
  (mrun r prev s).map (fun pr => s.length - pr.2.length)

/-- Largest element of a list of naturals (`0` on empty). -/
def maxNat (l : List ℕ) : ℕ := l.foldl max 0

/-- The global-`exec` loop of `detectPhrases` for one compiled pattern:
`(index, length)` of each successive match, continuing after the end of the
previous match (`lastIndex`).  Fuel bounds the scan (initially
`s.length + 1`, enough to visit every position). -/
def execAllAux (r : Reg) : ℕ → Option Char → ℕ → List Char → List (ℕ × ℕ)
  | 0, _, _, _ => []
  | fuel + 1, prev, i, s =>
      let lens := matchLens r prev s
      if lens.isEmpty then
        match s with
        | [] => []
        | c :: cs => execAllAux r fuel (some c) (i + 1) cs
      else
        let len := maxNat lens
        let consumed := s.take len
        let prevNext := consumed.getLast? <|> prev
        (i, len) :: execAllAux r fuel prevNext (i + len) (s.drop len)

/-- All matches of a compiled pattern over a text, as `(index, length)`. -/
def execAll (r : Reg) (s : List Char) : List (ℕ × ℕ) :=
  execAllAux r (s.length + 1) none 0 s

/-- The apostrophe character (as a string), used in patterns and inputs. -/
def aposS : String := String.mk [Char.ofNat 39]

/-- `PhrasePattern` from `stall-detector.service.ts`. -/
structure PhrasePattern where
  pattern : Reg
  category : StallPhraseCategory
  baseConfidence : ℚ
  phraseLabel : String

/-- The `STALL_PATTERNS` table from `stall-detector.service.ts`, with each
source regex transcribed into the `Reg` AST in table order. -/
def STALL_PATTERNS : List PhrasePattern := [
  -- /\b(send|email|get)\s+(me\s+)?(the\s+)?(pricing|price\s*list|quote|proposal)\b/i
  { pattern := .cat [.wb, .anyOf [.lit "send", .lit "email", .lit "get"], .wsPlus,
      .opt (.cat [.lit "me", .wsPlus]), .opt (.cat [.lit "the", .wsPlus]),
      .anyOf [.lit "pricing", .cat [.lit "price", .wsStar, .lit "list"], .lit "quote", .lit "proposal"], .wb],
    category := .PRICING_REQUEST, baseConfidence := 0.6, phraseLabel := "send pricing" },
  -- /\bwhat('s|\s+is)\s+(the\s+)?(price|cost|pricing)\b/i
  { pattern := .cat [.wb, .lit "what", .anyOf [.lit (aposS ++ "s"), .cat [.wsPlus, .lit "is"]],
      .wsPlus, .opt (.cat [.lit "the", .wsPlus]),
      .anyOf [.lit "price", .lit "cost", .lit "pricing"], .wb],
    category := .PRICING_REQUEST, baseConfidence := 0.4, phraseLabel := "price inquiry" },
  -- /\bjust\s+send\s+(me\s+)?(the\s+)?pricing\b/i
  { pattern := .cat [.wb, .lit "just", .wsPlus, .lit "send", .wsPlus,
      .opt (.cat [.lit "me", .wsPlus]), .opt (.cat [.lit "the", .wsPlus]), .lit "pricing", .wb],
    category := .PRICING_REQUEST, baseConfidence := 0.8, phraseLabel := "just send pricing" },
  -- /\b(need|have)\s+to\s+(get\s+)?approval\b/i
  { pattern := .cat [.wb, .anyOf [.lit "need", .lit "have"], .wsPlus, .lit "to", .wsPlus,
      .opt (.cat [.lit "get", .wsPlus]), .lit "approval", .wb],
    category := .APPROVAL_NEEDED, baseConfidence := 0.75, phraseLabel := "need to get approval" },
  -- /\bneed\s+(my\s+)?(boss|manager|director|vp|cfo|ceo)('s)?\s+approval\b/i
  { pattern := .cat [.wb, .lit "need", .wsPlus, .opt (.cat [.lit "my", .wsPlus]),
      .anyOf [.lit "boss", .lit "manager", .lit "director", .lit "vp", .lit "cfo", .lit "ceo"],
      .opt (.lit (aposS ++ "s")), .wsPlus, .lit "approval", .wb],
    category := .APPROVAL_NEEDED, baseConfidence := 0.8, phraseLabel := "need executive approval" },
  -- /\bwait(ing)?\s+for\s+approval\b/i
  { pattern := .cat [.wb, .lit "wait", .opt (.lit "ing"), .wsPlus, .lit "for", .wsPlus,
      .lit "approval", .wb],
    category := .APPROVAL_NEEDED, baseConfidence := 0.7, phraseLabel := "waiting for approval" },
  -- /\bnot\s+in\s+(the\s+)?budget\b/i
  { pattern := .cat [.wb, .lit "not", .wsPlus, .lit "in", .wsPlus,
      .opt (.cat [.lit "the", .wsPlus]), .lit "budget", .wb],
    category := .APPROVAL_NEEDED, baseConfidence := 0.85, phraseLabel := "not in budget" },
  -- /\blet\s+me\s+think\s+(about\s+it|on\s+it|it\s+over)\b/i
  { pattern := .cat [.wb, .lit "let", .wsPlus, .lit "me", .wsPlus, .lit "think", .wsPlus,
      .anyOf [.cat [.lit "about", .wsPlus, .lit "it"], .cat [.lit "on", .wsPlus, .lit "it"],
              .cat [.lit "it", .wsPlus, .lit "over"]], .wb],
    category := .THINKING, baseConfidence := 0.7, phraseLabel := "let me think about it" },
  -- /\b(i\s+)?need\s+(some\s+)?time\s+to\s+think\b/i
  { pattern := .cat [.wb, .opt (.cat [.lit "i", .wsPlus]), .lit "need", .wsPlus,
      .opt (.cat [.lit "some", .wsPlus]), .lit "time", .wsPlus, .lit "to", .wsPlus,
      .lit "think", .wb],
    category := .THINKING, baseConfidence := 0.65, phraseLabel := "need time to think" },
  -- /\bgive\s+(me|us)\s+(some\s+)?time\s+to\s+(think|consider|evaluate)\b/i
  { pattern := .cat [.wb, .lit "give", .wsPlus, .anyOf [.lit "me", .lit "us"], .wsPlus,
      .opt (.cat [.lit "some", .wsPlus]), .lit "time", .wsPlus, .lit "to", .wsPlus,
      .anyOf [.lit "think", .lit "consider", .lit "evaluate"], .wb],
    category := .THINKING, baseConfidence := 0.7, phraseLabel := "give us time to consider" },
  -- /\b(need\s+to\s+)?check\s+with\s+(my\s+)?team\b/i
  { pattern := .cat [.wb, .opt (.cat [.lit "need", .wsPlus, .lit "to", .wsPlus]),
      .lit "check", .wsPlus, .lit "with", .wsPlus, .opt (.cat [.lit "my", .wsPlus]),
      .lit "team", .wb],
    category := .TEAM_CHECK, baseConfidence := 0.6, phraseLabel := "check with my team" },
  -- /\brun\s+(it|this)\s+by\s+(my\s+)?team\b/i
  { pattern := .cat [.wb, .lit "run", .wsPlus, .anyOf [.lit "it", .lit "this"], .wsPlus,
      .lit "by", .wsPlus, .opt (.cat [.lit "my", .wsPlus]), .lit "team", .wb],
    category := .TEAM_CHECK, baseConfidence := 0.6, phraseLabel := "run by team" },
  -- /\bget\s+(my\s+)?team('s)?\s+(buy-in|input|feedback)\b/i
  { pattern := .cat [.wb, .lit "get", .wsPlus, .opt (.cat [.lit "my", .wsPlus]),
      .lit "team", .opt (.lit (aposS ++ "s")), .wsPlus,
      .anyOf [.lit "buy-in", .lit "input", .lit "feedback"], .wb],
    category := .TEAM_CHECK, baseConfidence := 0.65, phraseLabel := "get team buy-in" },
  -- /\bdiscuss\s+(it\s+)?with\s+(the\s+)?team\b/i
  { pattern := .cat [.wb, .lit "discuss", .wsPlus, .opt (.cat [.lit "it", .wsPlus]),
      .lit "with", .wsPlus, .opt (.cat [.lit "the", .wsPlus]), .lit "team", .wb],
    category := .TEAM_CHECK, baseConfidence := 0.55, phraseLabel := "discuss with team" },
  -- /\b(need\s+to\s+)?talk\s+to\s+(my\s+)?(boss|manager|director|vp|cfo|ceo|owner|partner)\b/i
  { pattern := .cat [.wb, .opt (.cat [.lit "need", .wsPlus, .lit "to", .wsPlus]),
      .lit "talk", .wsPlus, .lit "to", .wsPlus, .opt (.cat [.lit "my", .wsPlus]),
      .anyOf [.lit "boss", .lit "manager", .lit "director", .lit "vp", .lit "cfo",
              .lit "ceo", .lit "owner", .lit "partner"], .wb],
    category := .DECISION_MAKER, baseConfidence := 0.8, phraseLabel := "talk to decision maker" },
  -- /\b(my\s+)?(boss|manager|director|vp|cfo|ceo)\s+(makes|handles|decides)\b/i
  { pattern := .cat [.wb, .opt (.cat [.lit "my", .wsPlus]),
      .anyOf [.lit "boss", .lit "manager", .lit "director", .lit "vp", .lit "cfo", .lit "ceo"],
      .wsPlus, .anyOf [.lit "makes", .lit "handles", .lit "decides"], .wb],
    category := .DECISION_MAKER, baseConfidence := 0.75, phraseLabel := "executive decides" },
  -- /\bi('m|\s+am)\s+not\s+the\s+(decision\s*maker|one\s+who\s+decides)\b/i
  { pattern := .cat [.wb, .lit "i", .anyOf [.lit (aposS ++ "m"), .cat [.wsPlus, .lit "am"]],
      .wsPlus, .lit "not", .wsPlus, .lit "the", .wsPlus,
      .anyOf [.cat [.lit "decision", .wsStar, .lit "maker"],
              .cat [.lit "one", .wsPlus, .lit "who", .wsPlus, .lit "decides"]], .wb],
    category := .DECISION_MAKER, baseConfidence := 0.9, phraseLabel := "not the decision maker" },
  -- /\bsomeone\s+else\s+(makes|handles)\s+(that\s+)?decision\b/i
  { pattern := .cat [.wb, .lit "someone", .wsPlus, .lit "else", .wsPlus,
      .anyOf [.lit "makes", .lit "handles"], .wsPlus, .opt (.cat [.lit "that", .wsPlus]),
      .lit "decision", .wb],
    category := .DECISION_MAKER, baseConfidence := 0.85, phraseLabel := "someone else decides" },
  -- /\bcall\s+(me\s+)?back\s+(next\s+)?(week|month|quarter)\b/i
  { pattern := .cat [.wb, .lit "call", .wsPlus, .opt (.cat [.lit "me", .wsPlus]),
      .lit "back", .wsPlus, .opt (.cat [.lit "next", .wsPlus]),
      .anyOf [.lit "week", .lit "month", .lit "quarter"], .wb],
    category := .CALLBACK_REQUEST, baseConfidence := 0.75, phraseLabel := "call back later" },
  -- /\b(reach\s+out|follow\s+up|get\s+back\s+to\s+me)\s+(next\s+)?(week|month|quarter)\b/i
  { pattern := .cat [.wb,
      .anyOf [.cat [.lit "reach", .wsPlus, .lit "out"], .cat [.lit "follow", .wsPlus, .lit "up"],
              .cat [.lit "get", .wsPlus, .lit "back", .wsPlus, .lit "to", .wsPlus, .lit "me"]],
      .wsPlus, .opt (.cat [.lit "next", .wsPlus]),
      .anyOf [.lit "week", .lit "month", .lit "quarter"], .wb],
    category := .CALLBACK_REQUEST, baseConfidence := 0.7, phraseLabel := "follow up later" },
  -- /\btouch\s+base\s+(in\s+)?a\s+(few\s+)?(weeks?|months?)\b/i
  { pattern := .cat [.wb, .lit "touch", .wsPlus, .lit "base", .wsPlus,
      .opt (.cat [.lit "in", .wsPlus]), .lit "a", .wsPlus, .opt (.cat [.lit "few", .wsPlus]),
      .anyOf [.cat [.lit "week", .opt (.lit "s")], .cat [.lit "month", .opt (.lit "s")]], .wb],
    category := .CALLBACK_REQUEST, baseConfidence := 0.7, phraseLabel := "touch base in weeks/months" },
  -- /\bnot\s+(a\s+good|the\s+right)\s+time\b/i
  { pattern := .cat [.wb, .lit "not", .wsPlus,
      .anyOf [.cat [.lit "a", .wsPlus, .lit "good"], .cat [.lit "the", .wsPlus, .lit "right"]],
      .wsPlus, .lit "time", .wb],
    category := .CALLBACK_REQUEST, baseConfidence := 0.8, phraseLabel := "not the right time" },
  -- /\bmaybe\s+(next\s+)?(quarter|year)\b/i
  { pattern := .cat [.wb, .lit "maybe", .wsPlus, .opt (.cat [.lit "next", .wsPlus]),
      .anyOf [.lit "quarter", .lit "year"], .wb],
    category := .CALLBACK_REQUEST, baseConfidence := 0.85, phraseLabel := "maybe next quarter/year" },
  -- /\bwe('ll|\s+will)\s+get\s+back\s+to\s+you\b/i
  { pattern := .cat [.wb, .lit "we", .anyOf [.lit (aposS ++ "ll"), .cat [.wsPlus, .lit "will"]],
      .wsPlus, .lit "get", .wsPlus, .lit "back", .wsPlus, .lit "to", .wsPlus, .lit "you", .wb],
    category := .FOLLOWUP_PROMISE, baseConfidence := 0.65,
    phraseLabel := "we" ++ aposS ++ "ll get back to you" },
  -- /\bi('ll|\s+will)\s+(let\s+you\s+know|be\s+in\s+touch)\b/i
  { pattern := .cat [.wb, .lit "i", .anyOf [.lit (aposS ++ "ll"), .cat [.wsPlus, .lit "will"]],
      .wsPlus, .anyOf [.cat [.lit "let", .wsPlus, .lit "you", .wsPlus, .lit "know"],
                       .cat [.lit "be", .wsPlus, .lit "in", .wsPlus, .lit "touch"]], .wb],
    category := .FOLLOWUP_PROMISE, baseConfidence := 0.6,
    phraseLabel := "I" ++ aposS ++ "ll let you know" },
  -- /\bwe('ll|\s+will)\s+(reach\s+out|contact\s+you)\s+(when|if)\b/i
  { pattern := .cat [.wb, .lit "we", .anyOf [.lit (aposS ++ "ll"), .cat [.wsPlus, .lit "will"]],
      .wsPlus, .anyOf [.cat [.lit "reach", .wsPlus, .lit "out"],
                       .cat [.lit "contact", .wsPlus, .lit "you"]],
      .wsPlus, .anyOf [.lit "when", .lit "if"], .wb],
    category := .FOLLOWUP_PROMISE, baseConfidence := 0.7,
    phraseLabel := "we" ++ aposS ++ "ll contact you when..." },
  -- /\bneed\s+to\s+discuss\s+(this\s+)?internally\b/i
  { pattern := .cat [.wb, .lit "need", .wsPlus, .lit "to", .wsPlus, .lit "discuss", .wsPlus,
      .opt (.cat [.lit "this", .wsPlus]), .lit "internally", .wb],
    category := .INTERNAL_DISCUSSION, baseConfidence := 0.7,
    phraseLabel := "need to discuss internally" },
  -- /\bhave\s+(some\s+)?internal\s+(discussions?|meetings?|reviews?)\b/i
  { pattern := .cat [.wb, .lit "have", .wsPlus, .opt (.cat [.lit "some", .wsPlus]),
      .lit "internal", .wsPlus,
      .anyOf [.cat [.lit "discussion", .opt (.lit "s")], .cat [.lit "meeting", .opt (.lit "s")],
              .cat [.lit "review", .opt (.lit "s")]], .wb],
    category := .INTERNAL_DISCUSSION, baseConfidence := 0.65,
    phraseLabel := "internal discussions" },
  -- /\b(taking|take)\s+(it|this)\s+to\s+(our\s+)?(internal|leadership|board)\b/i
  { pattern := .cat [.wb, .anyOf [.lit "taking", .lit "take"], .wsPlus,
      .anyOf [.lit "it", .lit "this"], .wsPlus, .lit "to", .wsPlus,
      .opt (.cat [.lit "our", .wsPlus]),
      .anyOf [.lit "internal", .lit "leadership", .lit "board"], .wb],
    category := .INTERNAL_DISCUSSION, baseConfidence := 0.7,
    phraseLabel := "taking to leadership" },
  -- /\bgoing\s+through\s+(our\s+)?(internal\s+)?process\b/i
  { pattern := .cat [.wb, .lit "going", .wsPlus, .lit "through", .wsPlus,
      .opt (.cat [.lit "our", .wsPlus]), .opt (.cat [.lit "internal", .wsPlus]),
      .lit "process", .wb],
    category := .INTERNAL_DISCUSSION, baseConfidence := 0.6,
    phraseLabel := "going through process" }
]

/-- `StallPhraseMatch` from `src/types/stall.ts`. -/
structure StallPhraseMatch where
  phrase : String
  category : StallPhraseCategory
  matchedText : String
  confidence : ℚ
  position : ℕ
  context : Option String := none
deriving DecidableEq, Repr

/-- `StallDetectorService.extractContext`: a window of `radius` characters on
each side of `position`, with ellipsis markers when truncated, trimmed. -/
def extractContext (text : String) (position radius : ℕ) : String :=
  let chars := text.data
  let start := position - radius
  let stop := min chars.length (position + radius)
  let context := String.mk ((chars.drop start).take (stop - start))
  let context := if 0 < start then "..." ++ context else context
  let context := if stop < chars.length then context ++ "..." else context
  context.trim

/-- Stable insertion into a position-ascending list of matches (one step of
the stable JS `sort((a, b) => a.position - b.position)`). -/
def insertByPos (m : StallPhraseMatch) :
    List StallPhraseMatch → List StallPhraseMatch
  | [] => [m]
  | x :: xs => if m.position < x.position then m :: x :: xs else x :: insertByPos m xs

/-- Stable sort of matches by ascending position. -/
def sortByPosition (l : List StallPhraseMatch) : List StallPhraseMatch :=
  l.foldl (fun acc m => insertByPos m acc) []

/-- `StallDetectorService.detectPhrases`: run every pattern of
`STALL_PATTERNS` globally over the content, collect each occurrence as a
match carrying the pattern label, category, base confidence, matched text,
absolute position and a radius-100 context, then sort by position. -/
def detectPhrases (content : String) : List StallPhraseMatch :=
  let chars := content.data
  let raw := STALL_PATTERNS.flatMap (fun p =>
    (execAll p.pattern chars).map (fun im =>
      { phrase := p.phraseLabel
        category := p.category
        matchedText := String.mk ((chars.drop im.1).take im.2)
        confidence := p.baseConfidence
        position := im.1
        context := some (extractContext content im.1 100) }))
  sortByPosition raw

/-- `StallDetectorService.groupMatchesByCategory`: association list keyed by
category, groups in first-occurrence order (JS object key insertion order),
members in input order. -/
def groupMatchesByCategory (allMatches : List StallPhraseMatch) :
    List (StallPhraseCategory × List StallPhraseMatch) :=
  allMatches.foldl (fun groups m =>
    if groups.any (fun g => g.1 = m.category) then
      groups.map (fun g => if g.1 = m.category then (g.1, g.2 ++ [m]) else g)
    else groups ++ [(m.category, [m])]) []

/-- `StallDetectorService.calculateAggregateStrength`:
`min(10, maxConfidence * 8 + min(count - 1, 3) * 0.5)`, `0` on no matches. -/
def calculateAggregateStrength (allMatches : List StallPhraseMatch) : ℚ :=
  match allMatches.map (·.confidence) with
  | [] => 0
  | c :: cs =>
      let maxConfidence := cs.foldl max c
      let countBonus := ((min ((c :: cs).length - 1) 3 : ℕ) : ℚ) * 0.5
      min 10 (maxConfidence * 8 + countBonus)

/-- The JS `reduce` picking the highest-confidence match of a category group
(`current.confidence > best.confidence ? current : best`). -/
def bestMatchOf (m : StallPhraseMatch) (ms : List StallPhraseMatch) :
    StallPhraseMatch :=
  ms.foldl (fun best current =>
    if best.confidence < current.confidence then current else best) m

/-- `StallDetectorConfig` from `stall-detector.service.ts`. -/
structure StallDetectorConfig where
  timeDecayHalfLifeHours : ℚ
  maxSignalAgeHours : ℚ
  criticalThreshold : ℚ
  highThreshold : ℚ
  mediumThreshold : ℚ
  alertWithinHours : ℚ
  minConfidenceForAlert : ℚ
deriving DecidableEq, Repr

/-- `DEFAULT_CONFIG` from `stall-detector.service.ts`. -/
def DEFAULT_CONFIG : StallDetectorConfig :=
  { timeDecayHalfLifeHours := 48
    maxSignalAgeHours := 168
    criticalThreshold := 80
    highThreshold := 60
    mediumThreshold := 40
    alertWithinHours := 24
    minConfidenceForAlert := 0.5 }

/-- `StallDetectorService.calculateTimeDecayedConfidence`:
`base * 0.5 ^ (hoursOld / halfLifeHours)` with `hoursOld` computed from the
current time and the signal date (both in milliseconds). -/
noncomputable def calculateTimeDecayedConfidence (cfg : StallDetectorConfig)
    (now : ℚ) (baseConfidence : ℝ) (signalDate : ℚ) : ℝ :=
  let hoursOld : ℚ := (now - signalDate) / (1000 * 60 * 60)
  let decayFactor : ℝ := (0.5 : ℝ) ^ ((hoursOld : ℝ) / (cfg.timeDecayHalfLifeHours : ℝ))
  baseConfidence * decayFactor

/-- `StallSignal` from `src/types/stall.ts`.  Dates are milliseconds; the
time-decayed confidence is the one real-valued field. -/
structure StallSignal where
  id : String
  dealId : String
  accountId : String
  accountName : String
  source : StallSignalSource
  sourceId : String
  sourceTimestamp : ℚ
  phraseMatches : List StallPhraseMatch
  rawContent : Option String := none
  baseConfidence : ℚ
  timeDecayedConfidence : ℝ
  aggregateStrength : ℚ
  detectedAt : ℚ
  processedAt : Option ℚ := none

/-- The JS `reduce` in `calculateStallScore` picking the most recent signal
(`s.sourceTimestamp > latest.sourceTimestamp ? s : latest`). -/
def latestSignalOf (s : StallSignal) (rest : List StallSignal) : StallSignal :=
  rest.foldl (fun latest x =>
    if latest.sourceTimestamp < x.sourceTimestamp then x else latest) s

/-- The recency bonus of `calculateStallScore` as a function of the hours
since the most recent signal. -/
def recencyBonus (hoursSinceLatest : ℚ) : ℚ :=
  if hoursSinceLatest < 24 then 10 else if hoursSinceLatest < 48 then 5 else 0

/-- `StallDetectorService.calculateStallScore`: sum of
`timeDecayedConfidence * 30` over the signals plus the recency bonus, capped
at 100; `0` for no signals. -/
noncomputable def calculateStallScore (now : ℚ) (signals : List StallSignal) : ℝ :=
  match signals with
  | [] => 0
  | s :: rest =>
      let totalScore : ℝ :=
        (s :: rest).foldl (fun sum x => sum + x.timeDecayedConfidence * 30) 0
      let latestSignal := latestSignalOf s rest
      let hoursSinceLatest : ℚ :=
        (now - latestSignal.sourceTimestamp) / (1000 * 60 * 60)
      min 100 (totalScore + (recencyBonus hoursSinceLatest : ℝ))

/-- Direction of an `EmailContent` (from `src/types/stall.ts`). -/
inductive EmailDirection where
  | INBOUND
  | OUTBOUND
deriving DecidableEq, Repr

/-- `EmailContent` from `src/types/stall.ts` (optional `threadId`
omitted: unread by the detector). -/
structure EmailContent where
  id : String
  dealId : Option String := none
  accountId : String
  accountName : String
  subject : String
  body : String
  sentDate : ℚ
  direction : EmailDirection
deriving DecidableEq, Repr

/-- `StallDetectorService.analyzeEmail`.  The in-memory `signals` map
(insertion-ordered, keyed by fresh UUIDs) is threaded explicitly as a list;
`uuids n` supplies the `n`-th generated id and `now` is `Date.now()`.
Returns the produced signals and the updated store.  Non-inbound emails are
not analyzed; otherwise the subject and body are scanned, matches are grouped
by category, and one signal per category is created from its
highest-confidence match and appended to the store. -/
noncomputable def analyzeEmail (cfg : StallDetectorConfig) (now : ℚ)
    (uuids : ℕ → String) (email : EmailContent) (store : List StallSignal) :
    List StallSignal × List StallSignal :=
  if email.direction ≠ .INBOUND then ([], store)
  else
    let contentToAnalyze := email.subject ++ " " ++ email.body
    let found := detectPhrases contentToAnalyze
    if found.isEmpty then ([], store)
    else
      let matchesByCategory := groupMatchesByCategory found
      let signals := matchesByCategory.enum.filterMap (fun gi =>
        match gi.2.2 with
        | [] => none
        | m :: ms =>
            let bestMatch := bestMatchOf m ms
            some { id := uuids gi.1
                   dealId := email.dealId.getD ""
                   accountId := email.accountId
                   accountName := email.accountName
                   source := .EMAIL
                   sourceId := email.id
                   sourceTimestamp := email.sentDate
                   phraseMatches := m :: ms
                   rawContent := some (extractContext contentToAnalyze bestMatch.position 200)
                   baseConfidence := bestMatch.confidence
                   timeDecayedConfidence :=
                     calculateTimeDecayedConfidence cfg now (bestMatch.confidence : ℝ) email.sentDate
                   aggregateStrength := calculateAggregateStrength (m :: ms)
                   detectedAt := now
                   processedAt := none })
      (signals, store ++ signals)

-- =============================================================================
-- AUDIT SERVICE (src/services/audit.service.ts)
-- =============================================================================

/-- `AuditAction` enum from `src/types/crm-automation.ts`. -/
inductive AuditAction where
  | STAGE_CHANGE
  | DISPOSITION_SET
  | NOTE_ADDED
  | TASK_CREATED
  | FLAG_SET
  | CONFIRMATION_REQUIRED
  | ROLLBACK
  | ERROR
deriving DecidableEq, Repr

/-- The enum value string, as interpolated into the not-rollbackable
message. -/
def AuditAction.str : AuditAction → String
  | .STAGE_CHANGE => "STAGE_CHANGE"
  | .DISPOSITION_SET => "DISPOSITION_SET"
  | .NOTE_ADDED => "NOTE_ADDED"
  | .TASK_CREATED => "TASK_CREATED"
  | .FLAG_SET => "FLAG_SET"
  | .CONFIRMATION_REQUIRED => "CONFIRMATION_REQUIRED"
  | .ROLLBACK => "ROLLBACK"
  | .ERROR => "ERROR"

/-- `AuditEntry` from `src/types/crm-automation.ts`.  The
`previousValue`/`newValue` fields (typed `unknown`, holding stage /
disposition / note strings in practice) are `Option String`; `metadata` is
never read back and is omitted. -/
structure AuditEntry where
  id : String
  timestamp : ℚ
  callId : String
  prospectId : Option ℕ := none
  action : AuditAction
  previousValue : Option String := none
  newValue : Option String := none
  confidence : Option ℚ := none
  automated : Bool
  confirmedBy : Option String := none
  rollbackOf : Option String := none
deriving DecidableEq, Repr

/-- `AuditConfig` from `src/types/crm-automation.ts` (file-logging fields
omitted: file I/O is outside the embedding). -/
structure AuditConfig where
  retentionDays : ℚ
  enableRollback : Bool
deriving DecidableEq, Repr

/-- JS `Map.get` on an insertion-ordered association list. -/
def assocGet {κ α : Type} [BEq κ] (m : List (κ × α)) (k : κ) : Option α :=
  (m.find? (fun p => p.1 == k)).map (·.2)

/-- JS `Map.set` on an insertion-ordered association list: update in place if
the key exists, else append. -/
def assocSet {κ α : Type} [BEq κ] (m : List (κ × α)) (k : κ) (v : α) :
    List (κ × α) :=
  if m.any (fun p => p.1 == k) then
    m.map (fun p => if p.1 == k then (k, v) else p)
  else m ++ [(k, v)]

/-- JS `Map.set` keyed by entry id on the entries store. -/
def setEntry (entries : List AuditEntry) (e : AuditEntry) : List AuditEntry :=
  if entries.any (fun x => x.id == e.id) then
    entries.map (fun x => if x.id == e.id then e else x)
  else entries ++ [e]

/-- The mutable state of `AuditService`: the entry store and the two
secondary indexes (by call id, by prospect id), all insertion-ordered. -/
structure AuditState where
  entries : List AuditEntry := []
  entriesByCallId : List (String × List String) := []
  entriesByProspectId : List (ℕ × List String) := []
deriving DecidableEq, Repr

/-- `AuditService.addEntry`: store the entry and push its id onto both
secondary indexes (the prospect index only when `entry.prospectId` is truthy,
i.e. present and nonzero). -/
def addEntry (st : AuditState) (entry : AuditEntry) : AuditState :=
  let entries := setEntry st.entries entry
  let callEntries := (assocGet st.entriesByCallId entry.callId).getD []
  let entriesByCallId :=
    assocSet st.entriesByCallId entry.callId (callEntries ++ [entry.id])
  let entriesByProspectId :=
    match entry.prospectId with
    | some pid =>
        if pid ≠ 0 then
          let prospectEntries := (assocGet st.entriesByProspectId pid).getD []
          assocSet st.entriesByProspectId pid (prospectEntries ++ [entry.id])
        else st.entriesByProspectId
    | none => st.entriesByProspectId
  { entries := entries
    entriesByCallId := entriesByCallId
    entriesByProspectId := entriesByProspectId }

/-- `RollbackResult` from `audit.service.ts`. -/
structure RollbackResult where
  success : Bool
  auditId : String
  originalAuditId : String
  message : String
  previousValue : Option String := none
  restoredValue : Option String := none
deriving DecidableEq, Repr

/-- `AuditService.rollback`.  `newId` is the generated UUID of the rollback
entry and `now` the current time.  Fails (leaving the state untouched) when
rollback is disabled, when the entry is unknown, or when the entry action is
not rollback-eligible; otherwise appends a ROLLBACK entry with the original
values swapped and reports the value to restore. -/
def rollback (cfg : AuditConfig) (st : AuditState) (auditId confirmedBy : String)
    (newId : String) (now : ℚ) : RollbackResult × AuditState :=
  if !cfg.enableRollback then
    ({ success := false, auditId := "", originalAuditId := auditId
       message := "Rollback is disabled in configuration" }, st)
  else
    match st.entries.find? (fun e => e.id == auditId) with
    | none =>
        ({ success := false, auditId := "", originalAuditId := auditId
           message := "Audit entry not found" }, st)
    | some originalEntry =>
        if !(originalEntry.action = .STAGE_CHANGE ∨
             originalEntry.action = .DISPOSITION_SET : Bool) then
          ({ success := false, auditId := "", originalAuditId := auditId
             message := "Cannot rollback action type: " ++ originalEntry.action.str }, st)
        else
          let rollbackEntry : AuditEntry :=
            { id := newId
              timestamp := now
              callId := originalEntry.callId
              prospectId := originalEntry.prospectId
              action := .ROLLBACK
              previousValue := originalEntry.newValue
              newValue := originalEntry.previousValue
              automated := false
              confirmedBy := some confirmedBy
              rollbackOf := some auditId }
          ({ success := true
             auditId := rollbackEntry.id
             originalAuditId := auditId
             message := "Rollback recorded successfully"
             previousValue := originalEntry.newValue
             restoredValue := originalEntry.previousValue },
           addEntry st rollbackEntry)

-- =============================================================================
-- ALERT SERVICE (src/services/alert.service.ts)
-- =============================================================================

/-- `StallSeverity` enum from `src/types/stall.ts`. -/
inductive StallSeverity where
  | LOW
  | MEDIUM
  | HIGH
  | CRITICAL
deriving DecidableEq, Repr

/-- `DealStage` enum from `src/types/stall.ts`. -/
inductive DealStage where
  | QUALIFICATION
  | DISCOVERY
  | DEMO
  | PROPOSAL
  | NEGOTIATION
  | CLOSED_WON
  | CLOSED_LOST
deriving DecidableEq, Repr

/-- `AlertPriority` enum from `src/types/stall.ts`. -/
inductive AlertPriority where
  | URGENT
  | HIGH
  | MEDIUM
  | LOW
deriving DecidableEq, Repr

/-- `AlertChannel` enum from `src/types/stall.ts`. -/
inductive AlertChannel where
  | WEBHOOK
  | EMAIL
  | SLACK
  | SALESFORCE_TASK
deriving DecidableEq, Repr

/-- `AlertRecipientType` enum from `src/types/stall.ts`. -/
inductive AlertRecipientType where
  | REP
  | MANAGER
  | BOTH
deriving DecidableEq, Repr

/-- `StallStatus` from `src/types/stall.ts` (timestamps in milliseconds;
`daysSinceLastPositiveEngagement` in whole days). -/
structure StallStatus where
  dealId : String
  accountId : String
  accountName : String
  dealStage : DealStage
  dealValue : Option ℚ := none
  ownerRepId : String
  ownerRepName : String
  managerId : Option String := none
  managerName : Option String := none
  isStalled : Bool
  severity : StallSeverity
  stallScore : ℝ
  primaryCategory : Option StallPhraseCategory := none
  signalCount : ℕ
  latestSignalAt : Option ℚ := none
  signals : List StallSignal
  daysSinceLastPositiveEngagement : Option ℤ := none
  lastPositiveEngagementDate : Option ℚ := none
  lastPositiveEngagementType : Option String := none
  recommendedActions : List String
  calculatedAt : ℚ
  alertSentAt : Option ℚ := none

/-- A recipient entry of `StallAlert.recipients`. -/
structure AlertRecipient where
  id : String
  name : String
  email : String
  type : AlertRecipientType

/-- `StallAlert` from `src/types/stall.ts` (the templated `title`, `summary`
and `recommendedAction` strings are presentational and omitted). -/
structure StallAlert where
  id : String
  dealId : String
  accountId : String
  accountName : String
  detectedPhrase : String
  confidenceScore : ℚ
  timeSinceStallSignal : ℚ
  timeSinceLastPositiveEngagement : Option ℤ := none
  priority : AlertPriority
  recipientType : AlertRecipientType
  recipients : List AlertRecipient
  channels : List AlertChannel
  deliveredVia : List AlertChannel := []
  deliveredAt : Option ℚ := none
  actionUrl : Option String := none
  acknowledged : Bool
  acknowledgedAt : Option ℚ := none
  acknowledgedBy : Option String := none
  createdAt : ℚ
  expiresAt : ℚ
  stallStatus : StallStatus

/-- `AlertServiceConfig` from `alert.service.ts` (channel credential stubs
omitted). -/
structure AlertServiceConfig where
  alertWithinHours : ℚ
  alertExpirationHours : ℚ
  enabledChannels : List AlertChannel
  escalateToManagerAfterHours : ℚ
  escalateToBothOnCritical : Bool

/-- `DEFAULT_CONFIG` from `alert.service.ts`. -/
def defaultAlertConfig : AlertServiceConfig :=
  { alertWithinHours := 24
    alertExpirationHours := 72
    enabledChannels := [.WEBHOOK]
    escalateToManagerAfterHours := 24
    escalateToBothOnCritical := true }

/-- The mutable state of `AlertService`: the alert store and the
deal-to-alert-ids index, insertion-ordered. -/
structure AlertState where
  alerts : List StallAlert := []
  alertsByDeal : List (String × List String) := []

/-- JS `Map.set` keyed by alert id on the alert store. -/
def setAlert (alerts : List StallAlert) (a : StallAlert) : List StallAlert :=
  if alerts.any (fun x => x.id == a.id) then
    alerts.map (fun x => if x.id == a.id then a else x)
  else alerts ++ [a]

/-- `AlertService.mapSeverityToPriority`. -/
def mapSeverityToPriority : StallSeverity → AlertPriority
  | .CRITICAL => .URGENT
  | .HIGH => .HIGH
  | .MEDIUM => .MEDIUM
  | .LOW => .LOW

/-- JS truthiness of an optional string (absent and empty are falsy). -/
def strTruthy : Option String → Bool
  | none => false
  | some s => !(s == "")

/-- `AlertService.determineRecipientType`. -/
def determineRecipientType (cfg : AlertServiceConfig) (status : StallStatus)
    (priority : AlertPriority) : AlertRecipientType :=
  if priority = .URGENT && cfg.escalateToBothOnCritical then .BOTH
  else if priority = .HIGH && strTruthy status.managerId then .BOTH
  else .REP

/-- `AlertService.buildRecipients`. -/
def buildRecipients (status : StallStatus) (recipientType : AlertRecipientType) :
    List AlertRecipient :=
  let repPart : List AlertRecipient :=
    if recipientType = .REP || recipientType = .BOTH then
      [{ id := status.ownerRepId
         name := status.ownerRepName
         email := status.ownerRepId ++ "@company.com"
         type := .REP }]
    else []
  let managerPart : List AlertRecipient :=
    if (recipientType = .MANAGER || recipientType = .BOTH) &&
        strTruthy status.managerId then
      [{ id := status.managerId.getD ""
         name := if strTruthy status.managerName
                 then status.managerName.getD "" else "Manager"
         email := status.managerId.getD "" ++ "@company.com"
         type := .MANAGER }]
    else []
  repPart ++ managerPart

/-- The alert-context record built by `AlertService.buildAlertContext`. -/
structure AlertContext where
  topPhrase : String
  signalSource : String
  daysSinceEngagement : Option ℤ

/-- `AlertService.buildAlertContext`. -/
def buildAlertContext (status : StallStatus) : AlertContext :=
  let dflt : AlertContext :=
    { topPhrase := "deal stall detected"
      signalSource := "recent interaction"
      daysSinceEngagement := status.daysSinceLastPositiveEngagement }
  match status.signals with
  | [] => dflt
  | s :: rest =>
      let latestSignal := latestSignalOf s rest
      let topPhrase :=
        match latestSignal.phraseMatches with
        | [] => dflt.topPhrase
        | m :: _ => m.matchedText
      let signalSource :=
        if latestSignal.source = .CALL_TRANSCRIPT then "a recent call"
        else if latestSignal.source = .EMAIL then "an email"
        else "recent interaction"
      { dflt with topPhrase := topPhrase, signalSource := signalSource }

/-- `AlertService.getHighestConfidence`: maximum base confidence over the
status signals, `0` when there are none. -/
def getHighestConfidence (status : StallStatus) : ℚ :=
  match status.signals.map (·.baseConfidence) with
  | [] => 0
  | c :: cs => cs.foldl max c

/-- `AlertService.buildActionUrl` (JS truthiness: an empty deal id yields
null). -/
def buildActionUrl (status : StallStatus) : Option String :=
  if status.dealId == "" then none
  else some ("https://salesforce.com/lightning/r/Opportunity/" ++
             status.dealId ++ "/view")

/-- The suppression test of `generateAlert`: does the deal already have a
stored, unacknowledged alert created less than `alertWithinHours` ago? -/
def hasRecentUnacked (cfg : AlertServiceConfig) (now : ℚ) (st : AlertState)
    (dealId : String) : Bool :=
  ((assocGet st.alertsByDeal dealId).getD []).any (fun alertId =>
    match st.alerts.find? (fun a => a.id == alertId) with
    | none => false
    | some alert =>
        !alert.acknowledged &&
        decide ((now - alert.createdAt) / (1000 * 60 * 60) < cfg.alertWithinHours))

/-- `AlertService.generateAlert`.  `newId` is the generated UUID, `now` is
`Date.now()`.  Returns the created alert (if any) and the updated store.
No alert is created for a non-stalled status or when a recent unacknowledged
alert for the deal exists; otherwise the alert is built, stored and indexed. -/
def generateAlert (cfg : AlertServiceConfig) (now : ℚ) (newId : String)
    (status : StallStatus) (st : AlertState) : Option StallAlert × AlertState :=
  if !status.isStalled then (none, st)
  else if hasRecentUnacked cfg now st status.dealId then (none, st)
  else
    let priority := mapSeverityToPriority status.severity
    let recipientType := determineRecipientType cfg status priority
    let context := buildAlertContext status
    let recipients := buildRecipients status recipientType
    let expiresAt := now + cfg.alertExpirationHours * 60 * 60 * 1000
    let alert : StallAlert :=
      { id := newId
        dealId := status.dealId
        accountId := status.accountId
        accountName := status.accountName
        detectedPhrase := context.topPhrase
        confidenceScore := getHighestConfidence status
        timeSinceStallSignal :=
          match status.latestSignalAt with
          | some t => (now - t) / (1000 * 60 * 60)
          | none => 0
        timeSinceLastPositiveEngagement := status.daysSinceLastPositiveEngagement
        priority := priority
        recipientType := recipientType
        recipients := recipients
        channels := cfg.enabledChannels
        deliveredVia := []
        deliveredAt := none
        actionUrl := buildActionUrl status
        acknowledged := false
        acknowledgedAt := none
        acknowledgedBy := none
        createdAt := now
        expiresAt := expiresAt
        stallStatus := status }
    let dealAlerts := (assocGet st.alertsByDeal status.dealId).getD []
    (some alert,
     { alerts := setAlert st.alerts alert
       alertsByDeal := assocSet st.alertsByDeal status.dealId (dealAlerts ++ [alert.id]) })

/-- `AlertService.acknowledgeAlert`: marks the stored alert acknowledged in
place (no-op returning `none` when the alert id is unknown). -/
def acknowledgeAlert (st : AlertState) (alertId acknowledgedBy : String)
    (now : ℚ) : Option StallAlert × AlertState :=
  match st.alerts.find? (fun a => a.id == alertId) with
  | none => (none, st)
  | some alert =>
      let updated := { alert with
        acknowledged := true
        acknowledgedAt := some now
        acknowledgedBy := some acknowledgedBy }
      (some updated,
       { st with alerts :=
           st.alerts.map (fun x => if x.id == alertId then updated else x) })

-- =============================================================================
-- THEOREMS
-- =============================================================================

-- Helper lemmas ---------------------------------------------------------------

/-- The rule loop of `mapToStage` returns the outcome of the first rule the
`find?` combinator would select. -/
theorem mapToStageAux_eq_find (cfg : StageEngineConfig) (signals : List CallSignal) :
    ∀ rules : List StageRule,
      mapToStageAux cfg signals rules =
        (match rules.find? (fun r => evaluateRule r signals) with
         | some r => applyRule cfg r signals
         | none => defaultMappingResult)
  | [] => rfl
  | r :: rs => by
      by_cases h : evaluateRule r signals
      · simp [mapToStageAux, List.find?, h]
      · simp only [Bool.not_eq_true] at h
        simp [mapToStageAux, List.find?, h, mapToStageAux_eq_find cfg signals rs]

-- C1 --------------------------------------------------------------------------

/-- C1: `mapToStage` considers the rule table in strictly descending priority
order and returns the outcome of the first rule whose conditions are
satisfied; when no rule is satisfied it returns the fixed default result —
stage WORKING, confidence exactly 0.3, a `needs_manual_review` flag and a
confirmation requirement — so it always produces a result (it is a total
function). -/
theorem mapToStage_first_match (cfg : StageEngineConfig) (signals : List CallSignal) :
    List.Pairwise (fun a b => b.priority < a.priority) sortedRules ∧
    mapToStage cfg signals =
      (match sortedRules.find? (fun r => evaluateRule r signals) with
       | some r => applyRule cfg r signals
       | none => defaultMappingResult) ∧
    ((∀ r ∈ sortedRules, evaluateRule r signals = false) →
      mapToStage cfg signals = defaultMappingResult ∧
      (mapToStage cfg signals).newStage = OutreachStage.WORKING ∧
      (mapToStage cfg signals).confidence = 0.3 ∧
      (mapToStage cfg signals).flags = ["needs_manual_review"] ∧
      (mapToStage cfg signals).requiresConfirmation = true) := by
  refine ⟨by decide, mapToStageAux_eq_find cfg signals sortedRules, ?_⟩
  intro h
  have hnone : sortedRules.find? (fun r => evaluateRule r signals) = none := by
    rw [List.find?_eq_none]
    intro r hr
    simp [h r hr]
  have hdef : mapToStage cfg signals = defaultMappingResult := by
    rw [mapToStage, mapToStageAux_eq_find cfg signals sortedRules, hnone]
  exact ⟨hdef, by rw [hdef]; rfl, by rw [hdef]; rfl, by rw [hdef]; rfl,
    by rw [hdef]; rfl⟩

/-- Witness for C1: with no signals, no rule is satisfied and the default
result is produced. -/
theorem mapToStage_first_match_witness :
    (∀ r ∈ sortedRules, evaluateRule r [] = false) ∧
    (mapToStage defaultStageEngineConfig [] = defaultMappingResult ∧
     (mapToStage defaultStageEngineConfig []).newStage = OutreachStage.WORKING ∧
     (mapToStage defaultStageEngineConfig []).confidence = 0.3 ∧
     (mapToStage defaultStageEngineConfig []).flags = ["needs_manual_review"] ∧
     (mapToStage defaultStageEngineConfig []).requiresConfirmation = true) :=
  ⟨by decide,
   (mapToStage_first_match defaultStageEngineConfig []).2.2 (by decide)⟩

-- C2 --------------------------------------------------------------------------

/-- C2: with ordered thresholds (`medium ≤ high`), `getActionDecision` is a
total three-way router: every confidence maps to exactly one of AUTO_UPDATE,
FLAG_FOR_CONFIRMATION, NO_ACTION; at or above the high threshold the action
is AUTO_UPDATE when auto-update is enabled and FLAG_FOR_CONFIRMATION when
disabled; between the thresholds it is FLAG_FOR_CONFIRMATION when flagging is
enabled and NO_ACTION when disabled; and below the medium threshold it is
NO_ACTION under every configuration. -/
theorem getActionDecision_routing (cfg : StageEngineConfig) (c : ℚ)
    (hord : cfg.mediumConfidenceThreshold ≤ cfg.highConfidenceThreshold) :
    ((getActionDecision cfg c).action = AutomationAction.AUTO_UPDATE ∨
     (getActionDecision cfg c).action = AutomationAction.FLAG_FOR_CONFIRMATION ∨
     (getActionDecision cfg c).action = AutomationAction.NO_ACTION) ∧
    (cfg.highConfidenceThreshold ≤ c →
      (getActionDecision cfg c).action =
        (if cfg.enableAutoUpdate then AutomationAction.AUTO_UPDATE
         else AutomationAction.FLAG_FOR_CONFIRMATION)) ∧
    (cfg.mediumConfidenceThreshold ≤ c → c < cfg.highConfidenceThreshold →
      (getActionDecision cfg c).action =
        (if cfg.enableFlagging then AutomationAction.FLAG_FOR_CONFIRMATION
         else AutomationAction.NO_ACTION)) ∧
    (c < cfg.mediumConfidenceThreshold →
      (getActionDecision cfg c).action = AutomationAction.NO_ACTION) := by
  by_cases h1 : cfg.highConfidenceThreshold ≤ c
  · have e : getActionDecision cfg c =
        { action := if cfg.enableAutoUpdate then .AUTO_UPDATE else .FLAG_FOR_CONFIRMATION
          confidenceLevel := .HIGH, confidence := c } := by
      rw [getActionDecision, if_pos h1]
    refine ⟨?_, fun _ => by rw [e], fun _ hlt => absurd h1 (not_le.mpr hlt),
      fun hlow => absurd h1 (not_le.mpr (lt_of_lt_of_le hlow hord))⟩
    rw [e]; cases cfg.enableAutoUpdate <;> simp
  · by_cases h2 : cfg.mediumConfidenceThreshold ≤ c
    · have e : getActionDecision cfg c =
          { action := if cfg.enableFlagging then .FLAG_FOR_CONFIRMATION else .NO_ACTION
            confidenceLevel := .MEDIUM, confidence := c } := by
        rw [getActionDecision, if_neg h1, if_pos h2]
      refine ⟨?_, fun hh => absurd hh h1, fun _ _ => by rw [e],
        fun hlow => absurd h2 (not_le.mpr hlow)⟩
      rw [e]; cases cfg.enableFlagging <;> simp
    · have e : getActionDecision cfg c =
          { action := .NO_ACTION, confidenceLevel := .LOW, confidence := c } := by
        rw [getActionDecision, if_neg h1, if_neg h2]
      exact ⟨Or.inr (Or.inr (by rw [e])), fun hh => absurd hh h1,
        fun hm _ => absurd hm h2, fun _ => by rw [e]⟩

/-- Witness for C2: default thresholds (0.5 ≤ 0.8) at confidence 0.3. -/
theorem getActionDecision_routing_witness :
    defaultStageEngineConfig.mediumConfidenceThreshold ≤
      defaultStageEngineConfig.highConfidenceThreshold ∧
    (((getActionDecision defaultStageEngineConfig 0.3).action = AutomationAction.AUTO_UPDATE ∨
      (getActionDecision defaultStageEngineConfig 0.3).action = AutomationAction.FLAG_FOR_CONFIRMATION ∨
      (getActionDecision defaultStageEngineConfig 0.3).action = AutomationAction.NO_ACTION) ∧
     (defaultStageEngineConfig.highConfidenceThreshold ≤ 0.3 →
       (getActionDecision defaultStageEngineConfig 0.3).action =
         (if defaultStageEngineConfig.enableAutoUpdate then AutomationAction.AUTO_UPDATE
          else AutomationAction.FLAG_FOR_CONFIRMATION)) ∧
     (defaultStageEngineConfig.mediumConfidenceThreshold ≤ 0.3 →
       (0.3 : ℚ) < defaultStageEngineConfig.highConfidenceThreshold →
       (getActionDecision defaultStageEngineConfig 0.3).action =
         (if defaultStageEngineConfig.enableFlagging then AutomationAction.FLAG_FOR_CONFIRMATION
          else AutomationAction.NO_ACTION)) ∧
     ((0.3 : ℚ) < defaultStageEngineConfig.mediumConfidenceThreshold →
       (getActionDecision defaultStageEngineConfig 0.3).action = AutomationAction.NO_ACTION)) :=
  ⟨by norm_num [defaultStageEngineConfig],
   getActionDecision_routing defaultStageEngineConfig 0.3
     (by norm_num [defaultStageEngineConfig])⟩

-- C7 --------------------------------------------------------------------------

/-- C7: when a rule carries a `minConfidence` condition but no signal in the
set has a type in the rule's required or any-of sets, the minimum-confidence
check is vacuously satisfied, and rule evaluation reduces to the remaining
three structural checks — the rule is never rejected on confidence grounds. -/
theorem minConfidence_vacuously_satisfied (rule : StageRule)
    (signals : List CallSignal) (m : ℚ)
    (hm : rule.conditions.minConfidence = some m)
    (h : ∀ s ∈ signals,
      (rule.conditions.requiredSignals.getD []).contains s.type = false ∧
      (rule.conditions.anySignals.getD []).contains s.type = false) :
    minConfidenceOk rule.conditions signals = true ∧
    evaluateRule rule signals =
      (requiredSignalsOk rule.conditions signals &&
       anySignalsOk rule.conditions signals &&
       excludeSignalsOk rule.conditions signals) := by
  have hrel : relevantSignals rule.conditions signals = [] := by
    rw [relevantSignals, List.filter_eq_nil_iff]
    intro s hs
    simpa using h s hs
  have hok : minConfidenceOk rule.conditions signals = true := by
    rw [minConfidenceOk, hm]
    simp [hrel]
  exact ⟨hok, by rw [evaluateRule, hok, Bool.and_true]⟩

/-- The highest-priority rule of the table, used to witness C7 (it carries a
`minConfidence` of 0.6). -/
def vacuousWitnessRule : StageRule :=
  STAGE_RULES.headD
    { conditions := {}, result := { stage := .WORKING }, priority := 0 }

/-- Witness for C7: the demo-scheduled rule against a single `NO_ANSWER`
signal — no relevant signal exists, yet the confidence gate passes. -/
theorem minConfidence_vacuously_satisfied_witness :
    vacuousWitnessRule.conditions.minConfidence = some 0.6 ∧
    (∀ s ∈ [({ type := .NO_ANSWER, confidence := 0.9 } : CallSignal)],
      (vacuousWitnessRule.conditions.requiredSignals.getD []).contains s.type = false ∧
      (vacuousWitnessRule.conditions.anySignals.getD []).contains s.type = false) ∧
    (minConfidenceOk vacuousWitnessRule.conditions
        [({ type := .NO_ANSWER, confidence := 0.9 } : CallSignal)] = true ∧
     evaluateRule vacuousWitnessRule
        [({ type := .NO_ANSWER, confidence := 0.9 } : CallSignal)] =
      (requiredSignalsOk vacuousWitnessRule.conditions
          [({ type := .NO_ANSWER, confidence := 0.9 } : CallSignal)] &&
       anySignalsOk vacuousWitnessRule.conditions
          [({ type := .NO_ANSWER, confidence := 0.9 } : CallSignal)] &&
       excludeSignalsOk vacuousWitnessRule.conditions
          [({ type := .NO_ANSWER, confidence := 0.9 } : CallSignal)])) :=
  ⟨rfl, by decide,
   minConfidence_vacuously_satisfied vacuousWitnessRule
     [{ type := .NO_ANSWER, confidence := 0.9 }] 0.6 rfl (by decide)⟩

-- C3 --------------------------------------------------------------------------

/-- C3: time-decayed confidence is `base * 0.5 ^ (ageHours / halfLifeHours)`
(with the age derived from the signal date): at age 0 it equals the base, at
age equal to the (positive) half-life it equals half the base, and for a
fixed nonnegative base it is monotonically non-increasing as the signal date
moves further into the past. -/
theorem timeDecay_halfLife (cfg : StallDetectorConfig) (now : ℚ) (base : ℝ)
    (hpos : 0 < cfg.timeDecayHalfLifeHours) :
    calculateTimeDecayedConfidence cfg now base now = base ∧
    calculateTimeDecayedConfidence cfg now base
        (now - cfg.timeDecayHalfLifeHours * (1000 * 60 * 60)) = base / 2 ∧
    (0 ≤ base → ∀ d1 d2 : ℚ, d2 ≤ d1 →
      calculateTimeDecayedConfidence cfg now base d2 ≤
        calculateTimeDecayedConfidence cfg now base d1) := by
  refine ⟨?_, ?_, ?_⟩
  · show base * (0.5 : ℝ) ^ ((((now - now) / (1000 * 60 * 60) : ℚ) : ℝ) /
        (cfg.timeDecayHalfLifeHours : ℝ)) = base
    rw [sub_self]
    norm_num
  · show base * (0.5 : ℝ) ^
        ((((now - (now - cfg.timeDecayHalfLifeHours * (1000 * 60 * 60))) /
            (1000 * 60 * 60) : ℚ) : ℝ) / (cfg.timeDecayHalfLifeHours : ℝ)) = base / 2
    have hne : (cfg.timeDecayHalfLifeHours : ℝ) ≠ 0 := by
      exact_mod_cast ne_of_gt hpos
    have hexp : (((now - (now - cfg.timeDecayHalfLifeHours * (1000 * 60 * 60))) /
        (1000 * 60 * 60) : ℚ) : ℝ) / (cfg.timeDecayHalfLifeHours : ℝ) = 1 := by
      push_cast
      field_simp
    rw [hexp, Real.rpow_one]
    norm_num
    ring
  · intro hb d1 d2 hle
    have hhl : (0 : ℝ) < (cfg.timeDecayHalfLifeHours : ℝ) := by exact_mod_cast hpos
    have hq : ((now - d1) / (1000 * 60 * 60) : ℚ) ≤ (now - d2) / (1000 * 60 * 60) :=
      (div_le_div_iff_of_pos_right (by norm_num)).mpr (by linarith)
    have hmono : (0.5 : ℝ) ^ ((((now - d2) / (1000 * 60 * 60) : ℚ) : ℝ) /
          (cfg.timeDecayHalfLifeHours : ℝ)) ≤
        (0.5 : ℝ) ^ ((((now - d1) / (1000 * 60 * 60) : ℚ) : ℝ) /
          (cfg.timeDecayHalfLifeHours : ℝ)) := by
      apply Real.rpow_le_rpow_of_exponent_ge (by norm_num) (by norm_num)
      exact (div_le_div_iff_of_pos_right hhl).mpr (by exact_mod_cast hq)
    exact mul_le_mul_of_nonneg_left hmono hb

/-- Witness for C3: the default configuration (half-life 48h > 0) at base
confidence 1. -/
theorem timeDecay_halfLife_witness :
    0 < DEFAULT_CONFIG.timeDecayHalfLifeHours ∧
    (calculateTimeDecayedConfidence DEFAULT_CONFIG 0 1 0 = 1 ∧
     calculateTimeDecayedConfidence DEFAULT_CONFIG 0 1
        (0 - DEFAULT_CONFIG.timeDecayHalfLifeHours * (1000 * 60 * 60)) = 1 / 2 ∧
     (0 ≤ (1 : ℝ) → ∀ d1 d2 : ℚ, d2 ≤ d1 →
       calculateTimeDecayedConfidence DEFAULT_CONFIG 0 1 d2 ≤
         calculateTimeDecayedConfidence DEFAULT_CONFIG 0 1 d1)) :=
  ⟨by norm_num [DEFAULT_CONFIG],
   timeDecay_halfLife DEFAULT_CONFIG 0 1 (by norm_num [DEFAULT_CONFIG])⟩

-- C4 helpers ------------------------------------------------------------------

/-- The accumulation loop of `calculateStallScore` computes the sum of the
per-signal contributions. -/
theorem stallScore_foldl_eq_sum (l : List StallSignal) :
    ∀ init : ℝ,
      l.foldl (fun sum x => sum + x.timeDecayedConfidence * 30) init =
        init + (l.map (fun x => x.timeDecayedConfidence * 30)).sum := by
  induction l with
  | nil => intro init; simp
  | cons x xs ih =>
      intro init
      simp only [List.foldl_cons, List.map_cons, List.sum_cons, ih]
      ring

/-- The most-recent-signal `reduce` of `calculateStallScore` selects the
maximal source timestamp. -/
theorem latestSignalOf_ts (rest : List StallSignal) :
    ∀ s : StallSignal,
      (latestSignalOf s rest).sourceTimestamp =
        rest.foldl (fun m x => max m x.sourceTimestamp) s.sourceTimestamp := by
  induction rest with
  | nil => intro s; rfl
  | cons x xs ih =>
      intro s
      show (latestSignalOf (if s.sourceTimestamp < x.sourceTimestamp then x else s)
        xs).sourceTimestamp = _
      rcases lt_or_le s.sourceTimestamp x.sourceTimestamp with hlt | hle
      · rw [if_pos hlt, ih x]
        simp [max_eq_right (le_of_lt hlt)]
      · rw [if_neg (not_lt.mpr hle), ih s]
        simp [max_eq_left hle]

/-- The recency bonus is never negative. -/
theorem recencyBonus_nonneg (h : ℚ) : 0 ≤ recencyBonus h := by
  rw [recencyBonus]
  split_ifs <;> norm_num

/-- The recency bonus does not decrease when the latest signal is more
recent. -/
theorem recencyBonus_antitone {h1 h2 : ℚ} (hle : h1 ≤ h2) :
    recencyBonus h2 ≤ recencyBonus h1 := by
  rw [recencyBonus, recencyBonus]
  split_ifs <;> linarith

-- C4 --------------------------------------------------------------------------

/-- C4: the deal stall score is 0 on no signals; on signals it is the sum of
`timeDecayedConfidence * 30` plus the recency bonus determined by the most
recent signal (10 under 24h, 5 under 48h, else 0), capped at 100; it lies in
[0, 100] whenever the decayed confidences are nonnegative; and it never
decreases when a further signal of nonnegative decayed confidence is
added. -/
theorem stallScore_props (now : ℚ) :
    calculateStallScore now [] = 0 ∧
    (∀ (s : StallSignal) (rest : List StallSignal),
      calculateStallScore now (s :: rest) =
        min 100 (((s :: rest).map (fun x => x.timeDecayedConfidence * 30)).sum +
          ((recencyBonus ((now - rest.foldl (fun m x => max m x.sourceTimestamp)
              s.sourceTimestamp) / (1000 * 60 * 60))) : ℝ))) ∧
    (∀ l : List StallSignal, (∀ x ∈ l, (0 : ℝ) ≤ x.timeDecayedConfidence) →
      0 ≤ calculateStallScore now l ∧ calculateStallScore now l ≤ 100) ∧
    (∀ (l : List StallSignal) (x : StallSignal),
      (0 : ℝ) ≤ x.timeDecayedConfidence →
      calculateStallScore now l ≤ calculateStallScore now (l ++ [x])) := by
  have hform : ∀ (s : StallSignal) (rest : List StallSignal),
      calculateStallScore now (s :: rest) =
        min 100 (((s :: rest).map (fun x => x.timeDecayedConfidence * 30)).sum +
          ((recencyBonus ((now - rest.foldl (fun m x => max m x.sourceTimestamp)
              s.sourceTimestamp) / (1000 * 60 * 60))) : ℝ)) := by
    intro s rest
    show min 100 ((s :: rest).foldl (fun sum x => sum + x.timeDecayedConfidence * 30) 0 +
        ((recencyBonus ((now - (latestSignalOf s rest).sourceTimestamp) /
          (1000 * 60 * 60))) : ℝ)) = _
    rw [stallScore_foldl_eq_sum, latestSignalOf_ts, zero_add]
  refine ⟨rfl, hform, ?_, ?_⟩
  · intro l hnn
    have e0 : calculateStallScore now [] = 0 := rfl
    match l with
    | [] => exact ⟨le_of_eq e0.symm, by rw [e0]; norm_num⟩
    | s :: rest =>
        rw [hform s rest]
        constructor
        · apply le_min (by norm_num)
          apply add_nonneg
          · apply List.sum_nonneg
            intro a ha
            obtain ⟨x, hx, rfl⟩ := List.mem_map.mp ha
            exact mul_nonneg (hnn x hx) (by norm_num)
          · exact_mod_cast recencyBonus_nonneg _
        · exact min_le_left _ _
  · intro l x hx
    match l with
    | [] =>
        have e0 : calculateStallScore now [] = 0 := rfl
        rw [List.nil_append, e0, hform x []]
        apply le_min (by norm_num)
        apply add_nonneg
        · simp only [List.map_cons, List.map_nil, List.sum_cons, List.sum_nil, add_zero]
          exact mul_nonneg hx (by norm_num)
        · exact_mod_cast recencyBonus_nonneg _
    | s :: rest =>
        rw [show (s :: rest) ++ [x] = s :: (rest ++ [x]) from rfl, hform s rest,
          hform s (rest ++ [x])]
        apply min_le_min (le_refl 100)
        have hmax : rest.foldl (fun m y => max m y.sourceTimestamp) s.sourceTimestamp ≤
            (rest ++ [x]).foldl (fun m y => max m y.sourceTimestamp) s.sourceTimestamp := by
          rw [List.foldl_append]
          exact le_max_left _ _
        have hbonus : (recencyBonus ((now - rest.foldl (fun m y => max m y.sourceTimestamp)
              s.sourceTimestamp) / (1000 * 60 * 60)) : ℚ) ≤
            recencyBonus ((now - (rest ++ [x]).foldl (fun m y => max m y.sourceTimestamp)
              s.sourceTimestamp) / (1000 * 60 * 60)) := by
          apply recencyBonus_antitone
          apply (div_le_div_iff_of_pos_right (by norm_num)).mpr
          linarith
        have hsum : ((s :: rest).map (fun y => y.timeDecayedConfidence * 30)).sum ≤
            ((s :: (rest ++ [x])).map (fun y => y.timeDecayedConfidence * 30)).sum := by
          simp only [List.map_cons, List.sum_cons, List.map_append, List.sum_append,
            List.map_cons, List.map_nil, List.sum_cons, List.sum_nil, add_zero]
          have : (0 : ℝ) ≤ x.timeDecayedConfidence * 30 := mul_nonneg hx (by norm_num)
          linarith
        have := Rat.cast_le (K := ℝ) |>.mpr hbonus
        linarith

/-- Concrete signal used to witness C4. -/
noncomputable def witnessStallSignal : StallSignal :=
  { id := "sig-1"
    dealId := "deal-1"
    accountId := "acct-1"
    accountName := "Acme"
    source := .EMAIL
    sourceId := "email-1"
    sourceTimestamp := 0
    phraseMatches := []
    baseConfidence := 0.7
    timeDecayedConfidence := 1 / 2
    aggregateStrength := 5.6
    detectedAt := 0 }

/-- Witness for C4: adding one signal of nonnegative decayed confidence to
the empty signal list does not decrease the score, and the bounds hold on
the singleton list. -/
theorem stallScore_props_witness :
    ((0 : ℝ) ≤ witnessStallSignal.timeDecayedConfidence) ∧
    calculateStallScore 0 [] ≤ calculateStallScore 0 ([] ++ [witnessStallSignal]) ∧
    (0 ≤ calculateStallScore 0 [witnessStallSignal] ∧
     calculateStallScore 0 [witnessStallSignal] ≤ 100) :=
  have hx : (0 : ℝ) ≤ witnessStallSignal.timeDecayedConfidence := by
    rw [witnessStallSignal]; norm_num
  ⟨hx, (stallScore_props 0).2.2.2 [] witnessStallSignal hx,
    (stallScore_props 0).2.2.1 [witnessStallSignal]
      (by intro x hx'; rw [List.mem_singleton] at hx'; rw [hx']; exact hx)⟩

-- C9 --------------------------------------------------------------------------

/-- C9: `analyzeEmail` analyzes only inbound email — for any email whose
direction is not INBOUND it returns no signals and leaves the signal store
untouched, whatever the subject and body contain. -/
theorem analyzeEmail_nonInbound (cfg : StallDetectorConfig) (now : ℚ)
    (uuids : ℕ → String) (email : EmailContent) (store : List StallSignal)
    (h : email.direction ≠ EmailDirection.INBOUND) :
    analyzeEmail cfg now uuids email store = ([], store) := by
  rw [analyzeEmail, if_pos h]

/-- Outbound email (with stall phrases in subject and body) used to witness
C9. -/
def witnessOutboundEmail : EmailContent :=
  { id := "email-1"
    dealId := some "deal-1"
    accountId := "acct-1"
    accountName := "Acme"
    subject := "pricing"
    body := "just send me the pricing"
    sentDate := 0
    direction := .OUTBOUND }

/-- Witness for C9: an outbound email full of stall phrases produces no
signals and does not change the store. -/
theorem analyzeEmail_nonInbound_witness :
    witnessOutboundEmail.direction ≠ EmailDirection.INBOUND ∧
    analyzeEmail DEFAULT_CONFIG 0 (fun _ => "uuid-0") witnessOutboundEmail [] =
      ([], []) :=
  ⟨by decide,
   analyzeEmail_nonInbound DEFAULT_CONFIG 0 (fun _ => "uuid-0")
     witnessOutboundEmail [] (by decide)⟩

-- C8 --------------------------------------------------------------------------

/-- The end-to-end scenario text of the spec. -/
def c8Text : String :=
  "let me think about it and I" ++ aposS ++ "ll send you pricing next week"

set_option maxRecDepth 10000 in
/-- C8 counterexample: on the exact scenario text, `detectPhrases` does NOT
yield two categorized matches with one THINKING and one PRICING_REQUEST or
CALLBACK_REQUEST — the pricing-request patterns require the object right
after the verb (`send [me] [the] pricing`), which "send you pricing" does not
satisfy, and no callback pattern matches "next week" without a callback
verb. -/
theorem detectPhrases_c8_counterexample :
    ¬ (2 ≤ (detectPhrases c8Text).length ∧
       (∃ m ∈ detectPhrases c8Text, m.category = StallPhraseCategory.THINKING) ∧
       (∃ m ∈ detectPhrases c8Text,
          m.category = StallPhraseCategory.PRICING_REQUEST ∨
          m.category = StallPhraseCategory.CALLBACK_REQUEST)) := by
  decide

set_option maxRecDepth 10000 in
/-- C8 (amended): on the exact scenario text, `detectPhrases` yields exactly
one categorized match, in category THINKING (the "let me think about it"
pattern); no PRICING_REQUEST or CALLBACK_REQUEST match is produced. -/
theorem detectPhrases_c8_amended :
    (detectPhrases c8Text).map (fun m => m.category) =
      [StallPhraseCategory.THINKING] ∧
    (∃ m ∈ detectPhrases c8Text,
       m.category = StallPhraseCategory.THINKING ∧
       m.phrase = "let me think about it" ∧ m.position = 0) := by
  decide

-- C5 helpers ------------------------------------------------------------------

/-- Storing an entry whose id is not yet in the store appends it. -/
theorem setEntry_fresh (entries : List AuditEntry) (e : AuditEntry)
    (h : ∀ x ∈ entries, (x.id == e.id) = false) :
    setEntry entries e = entries ++ [e] := by
  rw [setEntry, if_neg]
  simp only [List.any_eq_true, not_exists, not_and]
  intro x hx
  simp [h x hx]

-- C5 --------------------------------------------------------------------------

/-- C5: with rollback enabled, `rollback(entryId, actor)` (1) fails with the
not-found result and leaves the state unchanged when no entry with that id
exists, (2) fails with the not-rollbackable result and leaves the state
unchanged when the entry action is outside {STAGE_CHANGE, DISPOSITION_SET},
and (3) otherwise appends exactly one new ROLLBACK entry whose
previousValue/newValue swap the original values and whose rollbackOf
references the original id, reporting success and the original
previousValue as the value to re-apply. -/
theorem rollback_props (cfg : AuditConfig) (st : AuditState)
    (auditId confirmedBy newId : String) (now : ℚ)
    (hen : cfg.enableRollback = true) :
    (st.entries.find? (fun e => e.id == auditId) = none →
      (rollback cfg st auditId confirmedBy newId now).1.success = false ∧
      (rollback cfg st auditId confirmedBy newId now).1.message =
        "Audit entry not found" ∧
      (rollback cfg st auditId confirmedBy newId now).2 = st) ∧
    (∀ orig, st.entries.find? (fun e => e.id == auditId) = some orig →
      orig.action ≠ AuditAction.STAGE_CHANGE →
      orig.action ≠ AuditAction.DISPOSITION_SET →
      (rollback cfg st auditId confirmedBy newId now).1.success = false ∧
      (rollback cfg st auditId confirmedBy newId now).2 = st) ∧
    (∀ orig, st.entries.find? (fun e => e.id == auditId) = some orig →
      (orig.action = AuditAction.STAGE_CHANGE ∨
       orig.action = AuditAction.DISPOSITION_SET) →
      (∀ x ∈ st.entries, (x.id == newId) = false) →
      (rollback cfg st auditId confirmedBy newId now).1.success = true ∧
      (rollback cfg st auditId confirmedBy newId now).1.restoredValue =
        orig.previousValue ∧
      (rollback cfg st auditId confirmedBy newId now).1.previousValue =
        orig.newValue ∧
      (rollback cfg st auditId confirmedBy newId now).2.entries =
        st.entries ++
          [{ id := newId
             timestamp := now
             callId := orig.callId
             prospectId := orig.prospectId
             action := AuditAction.ROLLBACK
             previousValue := orig.newValue
             newValue := orig.previousValue
             automated := false
             confirmedBy := some confirmedBy
             rollbackOf := some auditId }]) := by
  refine ⟨?_, ?_, ?_⟩
  · intro hnone
    simp [rollback, hen, hnone]
  · intro orig hfind h1 h2
    have hb : decide (orig.action = AuditAction.STAGE_CHANGE ∨
        orig.action = AuditAction.DISPOSITION_SET) = false :=
      decide_eq_false (not_or.mpr ⟨h1, h2⟩)
    simp [rollback, hen, hfind, hb]
  · intro orig hfind hel hfresh
    have hb : decide (orig.action = AuditAction.STAGE_CHANGE ∨
        orig.action = AuditAction.DISPOSITION_SET) = true := decide_eq_true hel
    refine ⟨by simp [rollback, hen, hfind, hb], by simp [rollback, hen, hfind, hb],
      by simp [rollback, hen, hfind, hb], ?_⟩
    have : (rollback cfg st auditId confirmedBy newId now).2 =
        addEntry st
          { id := newId
            timestamp := now
            callId := orig.callId
            prospectId := orig.prospectId
            action := AuditAction.ROLLBACK
            previousValue := orig.newValue
            newValue := orig.previousValue
            automated := false
            confirmedBy := some confirmedBy
            rollbackOf := some auditId } := by
      simp [rollback, hen, hfind, hb]
    rw [this, addEntry]
    exact setEntry_fresh st.entries _ hfresh

/-- Audit state used to witness C5 and C10: one automated stage change. -/
def witnessAuditState : AuditState :=
  addEntry {}
    { id := "audit-1"
      timestamp := 0
      callId := "call-1"
      prospectId := some 7
      action := .STAGE_CHANGE
      previousValue := some "WORKING"
      newValue := some "QUALIFIED"
      confidence := some 0.9
      automated := true }

/-- Witness for C5: rolling back the stored stage change appends the swapped
ROLLBACK entry and reports the previous stage to re-apply. -/
theorem rollback_props_witness :
    ({ retentionDays := 90, enableRollback := true } : AuditConfig).enableRollback
      = true ∧
    (witnessAuditState.entries.find? (fun e => e.id == "audit-1") =
      some { id := "audit-1", timestamp := 0, callId := "call-1",
             prospectId := some 7, action := .STAGE_CHANGE,
             previousValue := some "WORKING", newValue := some "QUALIFIED",
             confidence := some 0.9, automated := true }) ∧
    ((rollback { retentionDays := 90, enableRollback := true }
        witnessAuditState "audit-1" "rep-9" "audit-2" 5).1.success = true ∧
     (rollback { retentionDays := 90, enableRollback := true }
        witnessAuditState "audit-1" "rep-9" "audit-2" 5).1.restoredValue =
       some "WORKING" ∧
     (rollback { retentionDays := 90, enableRollback := true }
        witnessAuditState "audit-1" "rep-9" "audit-2" 5).1.previousValue =
       some "QUALIFIED" ∧
     (rollback { retentionDays := 90, enableRollback := true }
        witnessAuditState "audit-1" "rep-9" "audit-2" 5).2.entries =
       witnessAuditState.entries ++
         [{ id := "audit-2", timestamp := 5, callId := "call-1",
            prospectId := some 7, action := AuditAction.ROLLBACK,
            previousValue := some "QUALIFIED", newValue := some "WORKING",
            automated := false, confirmedBy := some "rep-9",
            rollbackOf := some "audit-1" }]) :=
  ⟨rfl, rfl,
   (rollback_props { retentionDays := 90, enableRollback := true }
      witnessAuditState "audit-1" "rep-9" "audit-2" 5 rfl).2.2
     { id := "audit-1", timestamp := 0, callId := "call-1",
       prospectId := some 7, action := .STAGE_CHANGE,
       previousValue := some "WORKING", newValue := some "QUALIFIED",
       confidence := some 0.9, automated := true }
     rfl (Or.inl rfl) (by decide)⟩

-- C10 -------------------------------------------------------------------------

/-- C10: with `enableRollback = false` the rollback operation fails for every
entry id — rollback-eligible entries included — and leaves the entry store
and both secondary indexes unchanged. -/
theorem rollback_disabled (cfg : AuditConfig) (st : AuditState)
    (auditId confirmedBy newId : String) (now : ℚ)
    (h : cfg.enableRollback = false) :
    (rollback cfg st auditId confirmedBy newId now).1.success = false ∧
    (rollback cfg st auditId confirmedBy newId now).1.message =
      "Rollback is disabled in configuration" ∧
    (rollback cfg st auditId confirmedBy newId now).2 = st := by
  simp [rollback, h]

/-- Witness for C10: the disabled configuration rejects rolling back even the
stored STAGE_CHANGE entry, leaving the state intact. -/
theorem rollback_disabled_witness :
    ({ retentionDays := 90, enableRollback := false } : AuditConfig).enableRollback
      = false ∧
    ((rollback { retentionDays := 90, enableRollback := false }
        witnessAuditState "audit-1" "rep-9" "audit-2" 5).1.success = false ∧
     (rollback { retentionDays := 90, enableRollback := false }
        witnessAuditState "audit-1" "rep-9" "audit-2" 5).1.message =
       "Rollback is disabled in configuration" ∧
     (rollback { retentionDays := 90, enableRollback := false }
        witnessAuditState "audit-1" "rep-9" "audit-2" 5).2 = witnessAuditState) :=
  ⟨rfl,
   rollback_disabled { retentionDays := 90, enableRollback := false }
     witnessAuditState "audit-1" "rep-9" "audit-2" 5 rfl⟩

-- C6 helpers ------------------------------------------------------------------

/-- Looking up by id commutes with an id-preserving in-place update of the
alert store. -/
theorem find?_alerts_map (g : StallAlert → StallAlert)
    (hg : ∀ x, (g x).id = x.id) (aid : String) (l : List StallAlert) :
    (l.map g).find? (fun a => a.id == aid) =
      (l.find? (fun a => a.id == aid)).map g := by
  induction l with
  | nil => rfl
  | cons x xs ih =>
      by_cases hx : (x.id == aid) = true
      · have hgx : ((g x).id == aid) = true := by rw [hg x]; exact hx
        rw [List.map_cons,
          @List.find?_cons_of_pos _ (fun a => a.id == aid) (g x) (xs.map g) hgx,
          @List.find?_cons_of_pos _ (fun a => a.id == aid) x xs hx]
        rfl
      · have hgx : ¬((g x).id == aid) = true := by rw [hg x]; exact hx
        rw [List.map_cons,
          @List.find?_cons_of_neg _ (fun a => a.id == aid) (g x) (xs.map g) hgx,
          @List.find?_cons_of_neg _ (fun a => a.id == aid) x xs hx, ih]

/-- An id-preserving in-place update leaves the id-occupancy test
unchanged. -/
theorem any_alerts_map (g : StallAlert → StallAlert)
    (hg : ∀ x, (g x).id = x.id) (aid : String) (l : List StallAlert) :
    (l.map g).any (fun a => a.id == aid) = l.any (fun a => a.id == aid) := by
  rw [List.any_map]
  congr 1
  funext x
  simp [Function.comp, hg x]

/-- `Map.get` after `Map.set` on the same key returns the stored value. -/
theorem assocGet_assocSet {κ α : Type} [BEq κ] [LawfulBEq κ]
    (m : List (κ × α)) (k : κ) (v : α) :
    assocGet (assocSet m k v) k = some v := by
  rw [assocSet]
  by_cases h : m.any (fun p => p.1 == k)
  · rw [if_pos h]
    induction m with
    | nil => simp at h
    | cons p ps ih =>
        by_cases hp : (p.1 == k) = true
        · rw [List.map_cons, if_pos hp, assocGet,
            List.find?_cons_of_pos _ (by simp)]
          rfl
        · have hps : ps.any (fun q => q.1 == k) = true := by
            rcases List.any_eq_true.mp h with ⟨q, hq, hqk⟩
            rcases List.mem_cons.mp hq with rfl | hq'
            · exact absurd hqk (by simp [hp])
            · exact List.any_eq_true.mpr ⟨q, hq', hqk⟩
          rw [List.map_cons, if_neg hp, assocGet,
            List.find?_cons_of_neg _ (by simpa using hp)]
          exact ih hps
  · rw [if_neg h, assocGet, List.find?_append]
    have hnone : m.find? (fun p => p.1 == k) = none := by
      rw [List.find?_eq_none]
      intro p hp
      exact fun hpk => h (List.any_eq_true.mpr ⟨p, hp, hpk⟩)
    rw [hnone, Option.none_or, List.find?_cons_of_pos _ (by simp)]
    rfl

-- C6 --------------------------------------------------------------------------

/-- C6: alert generation (1) produces nothing for a non-stalled status, (2)
produces nothing and leaves the alert store unchanged while the deal has a
stored unacknowledged alert created within the alert-generation window, and
(3) once that (sole) suppressing alert is acknowledged via
`acknowledgeAlert`, a subsequent `generateAlert` for a stalled status of the
same deal immediately creates an unacknowledged alert and stores and indexes
it — the at-most-one-active-alert invariant. -/
theorem generateAlert_suppression (cfg : AlertServiceConfig) (now tAck : ℚ)
    (newId ackId who : String) (status : StallStatus) (st : AlertState) :
    (status.isStalled = false → generateAlert cfg now newId status st = (none, st)) ∧
    ((∃ aid ∈ (assocGet st.alertsByDeal status.dealId).getD [],
        ∃ a, st.alerts.find? (fun x => x.id == aid) = some a ∧
          a.acknowledged = false ∧
          (now - a.createdAt) / (1000 * 60 * 60) < cfg.alertWithinHours) →
      generateAlert cfg now newId status st = (none, st)) ∧
    (∀ a, st.alerts.find? (fun x => x.id == ackId) = some a →
      status.isStalled = true →
      (∀ aid ∈ (assocGet st.alertsByDeal status.dealId).getD [], ∀ b,
        st.alerts.find? (fun x => x.id == aid) = some b →
        b.acknowledged = false →
        (now - b.createdAt) / (1000 * 60 * 60) < cfg.alertWithinHours →
        b.id = ackId) →
      (∀ b ∈ st.alerts, (b.id == newId) = false) →
      (generateAlert cfg now newId status
          ((acknowledgeAlert st ackId who tAck).2)).1.isSome = true ∧
      (∀ na, (generateAlert cfg now newId status
          ((acknowledgeAlert st ackId who tAck).2)).1 = some na →
        na.id = newId ∧ na.dealId = status.dealId ∧
        na.acknowledged = false ∧ na.createdAt = now ∧
        (generateAlert cfg now newId status
            ((acknowledgeAlert st ackId who tAck).2)).2.alerts =
          (acknowledgeAlert st ackId who tAck).2.alerts ++ [na] ∧
        assocGet (generateAlert cfg now newId status
            ((acknowledgeAlert st ackId who tAck).2)).2.alertsByDeal
            status.dealId =
          some (((assocGet st.alertsByDeal status.dealId).getD []) ++ [newId]))) := by
  refine ⟨?_, ?_, ?_⟩
  · intro hns
    simp [generateAlert, hns]
  · rintro ⟨aid, haid, a, hfind, hack, hlt⟩
    by_cases hstall : status.isStalled = true
    · have hsup : hasRecentUnacked cfg now st status.dealId = true := by
        rw [hasRecentUnacked]
        refine List.any_eq_true.mpr ⟨aid, haid, ?_⟩
        simp [hfind, hack, hlt]
      simp [generateAlert, hstall, hsup]
    · simp [generateAlert, Bool.eq_false_iff.mpr hstall]
  · intro a hfindAck hstall honly hfresh
    have haid : a.id = ackId := by
      have := List.find?_some hfindAck
      simpa using this
    have hack2a : ((acknowledgeAlert st ackId who tAck).2).alerts =
        st.alerts.map (fun x =>
          if x.id == ackId then
            { a with acknowledged := true, acknowledgedAt := some tAck,
                     acknowledgedBy := some who }
          else x) := by
      rw [acknowledgeAlert, hfindAck]
    have hack2b : ((acknowledgeAlert st ackId who tAck).2).alertsByDeal =
        st.alertsByDeal := by
      rw [acknowledgeAlert, hfindAck]
    have hg : ∀ x : StallAlert,
        ((fun x : StallAlert =>
          if x.id == ackId then
            { a with acknowledged := true, acknowledgedAt := some tAck,
                     acknowledgedBy := some who }
          else x) x).id = x.id := by
      intro x
      by_cases hx : (x.id == ackId) = true
      · simp only [hx, if_true]
        have : x.id = ackId := by simpa using hx
        rw [this, haid]
      · simp only [hx]
        simp
    have hno : hasRecentUnacked cfg now
        ((acknowledgeAlert st ackId who tAck).2) status.dealId = false := by
      rw [hasRecentUnacked, hack2a, hack2b]
      apply List.any_eq_false.mpr
      intro aid2 haid2
      show ¬ _ = true
      rw [find?_alerts_map _ hg aid2 st.alerts]
      cases hfb : st.alerts.find? (fun x => x.id == aid2) with
      | none => simp
      | some b =>
          simp only [Option.map_some']
          by_cases hbid : (b.id == ackId) = true
          · rw [if_pos hbid]
            simp
          · rw [if_neg hbid]
            simp only [Bool.and_eq_true, Bool.not_eq_true, decide_eq_true_eq,
              not_and]
            intro hbacked hbrec
            have hback : b.acknowledged = false := by simpa using hbacked
            have hb := honly aid2 haid2 b hfb hback hbrec
            rw [hb] at hbid
            simp at hbid
    have hfresh2 : ((acknowledgeAlert st ackId who tAck).2).alerts.any
        (fun x => x.id == newId) = false := by
      rw [hack2a, any_alerts_map _ hg newId st.alerts]
      apply List.any_eq_false.mpr
      intro b hb
      simp [hfresh b hb]
    have hgen : generateAlert cfg now newId status
        ((acknowledgeAlert st ackId who tAck).2) =
        (let st1 := (acknowledgeAlert st ackId who tAck).2
         let priority := mapSeverityToPriority status.severity
         let recipientType := determineRecipientType cfg status priority
         let context := buildAlertContext status
         let recipients := buildRecipients status recipientType
         let alert : StallAlert :=
          { id := newId
            dealId := status.dealId
            accountId := status.accountId
            accountName := status.accountName
            detectedPhrase := context.topPhrase
            confidenceScore := getHighestConfidence status
            timeSinceStallSignal :=
              match status.latestSignalAt with
              | some t => (now - t) / (1000 * 60 * 60)
              | none => 0
            timeSinceLastPositiveEngagement := status.daysSinceLastPositiveEngagement
            priority := priority
            recipientType := recipientType
            recipients := recipients
            channels := cfg.enabledChannels
            deliveredVia := []
            deliveredAt := none
            actionUrl := buildActionUrl status
            acknowledged := false
            acknowledgedAt := none
            acknowledgedBy := none
            createdAt := now
            expiresAt := now + cfg.alertExpirationHours * 60 * 60 * 1000
            stallStatus := status }
         (some alert,
          { alerts := setAlert st1.alerts alert
            alertsByDeal := assocSet st1.alertsByDeal status.dealId
              (((assocGet st1.alertsByDeal status.dealId).getD []) ++ [alert.id]) })) := by
      rw [generateAlert, hstall, hno]
      simp
    refine ⟨by rw [hgen]; rfl, ?_⟩
    intro na hna
    rw [hgen] at hna
    simp only [Option.some.injEq] at hna
    subst hna
    refine ⟨rfl, rfl, rfl, rfl, ?_, ?_⟩
    · rw [hgen]
      show setAlert ((acknowledgeAlert st ackId who tAck).2).alerts _ = _
      rw [setAlert, hfresh2]
      simp
    · rw [hgen]
      show assocGet (assocSet ((acknowledgeAlert st ackId who tAck).2).alertsByDeal
          status.dealId _) status.dealId = _
      rw [assocGet_assocSet]
      rw [hack2b]

/-- Stalled status used to witness C6. -/
noncomputable def witnessStallStatus : StallStatus :=
  { dealId := "deal-1"
    accountId := "acct-1"
    accountName := "Acme"
    dealStage := .PROPOSAL
    dealValue := some 50000
    ownerRepId := "rep-1"
    ownerRepName := "Riley Rep"
    isStalled := true
    severity := .MEDIUM
    stallScore := 50
    signalCount := 0
    signals := []
    recommendedActions := []
    calculatedAt := 0 }

/-- Unacknowledged stored alert used to witness C6 (created at time 0). -/
noncomputable def witnessAlert : StallAlert :=
  { id := "alert-1"
    dealId := "deal-1"
    accountId := "acct-1"
    accountName := "Acme"
    detectedPhrase := "deal stall detected"
    confidenceScore := 0
    timeSinceStallSignal := 0
    priority := .MEDIUM
    recipientType := .REP
    recipients := []
    channels := [.WEBHOOK]
    acknowledged := false
    createdAt := 0
    expiresAt := 259200000
    stallStatus := witnessStallStatus }

/-- Alert store holding the single unacknowledged alert for the deal. -/
noncomputable def witnessAlertState : AlertState :=
  { alerts := [witnessAlert]
    alertsByDeal := [("deal-1", ["alert-1"])] }

/-- Witness for C6: one hour after the stored unacknowledged alert was
created (within the 24h window) generation is suppressed and the store is
unchanged; after acknowledging that alert, generation for the same stalled
deal immediately produces an alert. -/
theorem generateAlert_suppression_witness :
    (∃ aid ∈ (assocGet witnessAlertState.alertsByDeal
        witnessStallStatus.dealId).getD [],
      ∃ a, witnessAlertState.alerts.find? (fun x => x.id == aid) = some a ∧
        a.acknowledged = false ∧
        ((3600000 : ℚ) - a.createdAt) / (1000 * 60 * 60) <
          defaultAlertConfig.alertWithinHours) ∧
    generateAlert defaultAlertConfig 3600000 "alert-2" witnessStallStatus
      witnessAlertState = (none, witnessAlertState) ∧
    (generateAlert defaultAlertConfig 3600000 "alert-2" witnessStallStatus
      ((acknowledgeAlert witnessAlertState "alert-1" "mgr-1" 3600000).2)).1.isSome
      = true := by
  have hgd : (assocGet witnessAlertState.alertsByDeal
      witnessStallStatus.dealId).getD [] = ["alert-1"] := rfl
  have hfind : witnessAlertState.alerts.find? (fun x => x.id == "alert-1") =
      some witnessAlert := rfl
  have hsup : ∃ aid ∈ (assocGet witnessAlertState.alertsByDeal
      witnessStallStatus.dealId).getD [],
      ∃ a, witnessAlertState.alerts.find? (fun x => x.id == aid) = some a ∧
        a.acknowledged = false ∧
        ((3600000 : ℚ) - a.createdAt) / (1000 * 60 * 60) <
          defaultAlertConfig.alertWithinHours := by
    refine ⟨"alert-1", by rw [hgd]; exact List.mem_singleton.mpr rfl,
      witnessAlert, hfind, rfl, ?_⟩
    show ((3600000 : ℚ) - witnessAlert.createdAt) / (1000 * 60 * 60) <
      defaultAlertConfig.alertWithinHours
    rw [show witnessAlert.createdAt = 0 from rfl,
      show defaultAlertConfig.alertWithinHours = 24 from rfl]
    norm_num
  have honly : ∀ aid ∈ (assocGet witnessAlertState.alertsByDeal
      witnessStallStatus.dealId).getD [], ∀ b,
      witnessAlertState.alerts.find? (fun x => x.id == aid) = some b →
      b.acknowledged = false →
      ((3600000 : ℚ) - b.createdAt) / (1000 * 60 * 60) <
        defaultAlertConfig.alertWithinHours →
      b.id = "alert-1" := by
    intro aid haid b hfb _ _
    rw [hgd] at haid
    rw [List.mem_singleton.mp haid] at hfb
    rw [hfind] at hfb
    rw [← Option.some.inj hfb]
    rfl
  have hfresh : ∀ b ∈ witnessAlertState.alerts, (b.id == "alert-2") = false := by
    intro b hb
    rw [show witnessAlertState.alerts = [witnessAlert] from rfl] at hb
    rw [List.mem_singleton.mp hb]
    rfl
  exact ⟨hsup,
    (generateAlert_suppression defaultAlertConfig 3600000 3600000 "alert-2"
      "alert-1" "mgr-1" witnessStallStatus witnessAlertState).2.1 hsup,
    ((generateAlert_suppression defaultAlertConfig 3600000 3600000 "alert-2"
      "alert-1" "mgr-1" witnessStallStatus witnessAlertState).2.2 witnessAlert
      hfind rfl honly hfresh).1⟩
